import Mathlib

/-!
Shallow embedding of `network_viz.py` (`plot_3D_network`) as a trace-producing
function.  The renderer is modelled as a function from its arguments to the
sequence of drawing / filesystem operations it performs, paired with the
Python exception (if any) that aborts the call.  Operations performed before
the exception are kept in the trace, exactly as their side effects persist in
Python.
-/

set_option autoImplicit false

/-- A 3-component position (one row of the `node_positions` array).
Coordinates are modelled as rationals. -/
structure Pos3 where
  x : ℚ
  y : ℚ
  z : ℚ
deriving DecidableEq, Repr

/-- Componentwise `np.mean(edge_pt, axis=0)` of the 2 x 3 stack of the two
endpoint rows. -/
def mean2 (p q : Pos3) : Pos3 :=
  ⟨(p.x + q.x) / 2, (p.y + q.y) / 2, (p.z + q.z) / 2⟩

/-- Componentwise `edge_pt[1, :] - edge_pt[0, :]`. -/
def sub3 (p q : Pos3) : Pos3 :=
  ⟨p.x - q.x, p.y - q.y, p.z - q.z⟩

/-- The Python exceptions `plot_3D_network` can raise. -/
inductive PyError where
  /-- `list.index` on a missing element (`ValueError`). -/
  | valueError
  /-- sequence index out of range (`IndexError`). -/
  | indexError
  /-- `os.path.join` applied to a non-string, non-None path component. -/
  | typeError
deriving DecidableEq, Repr

/-- The observable operations the renderer performs, in order. -/
inductive Op where
  /-- `ax.scatter(node_pt[0], node_pt[1], node_pt[2], s=…, c=…, alpha=…)`. -/
  | scatter (p : Pos3) (size : ℚ) (color : String) (alpha : ℚ)
  /-- `ax.text(…)` for a node label. -/
  | nodeText (x y z : ℚ) (label : String) (color : String) (alpha : ℚ)
  /-- `ax.plot(…)` for one edge segment. -/
  | plotLine (p q : Pos3) (lw : ℚ) (color : String) (alpha : ℚ)
  /-- `ax.text(…)` for an edge label (with direction vector). -/
  | edgeText (x y z : ℚ) (label : String) (dir : Pos3) (color : String) (alpha : ℚ)
  /-- `ax.view_init(elev=…, azim=…)`. -/
  | viewInit (elev : ℚ) (azim : Int)
  /-- `plt.savefig(path, …)`: the single filesystem write. -/
  | saveFig (path : String)
deriving DecidableEq, Repr

/-- A run of (part of) the renderer: the operations performed, and the
exception aborting it, if any. -/
abbrev RunResult := List Op × Option PyError

/-- The value of the `save_fpath` parameter: `None` (the default), a boolean
(as the module's `__main__` passes `False`), or a directory path string. -/
inductive SaveArg where
  | nonePath
  | boolPath (b : Bool)
  | strPath (s : String)
deriving DecidableEq, Repr

/-- `elev = 20.` -/
def elev : ℚ := 20

/-- `node_label_offset = 0.05` -/
def node_label_offset : ℚ := 1 / 20

/-- `edge_label_offset = 0.05` -/
def edge_label_offset : ℚ := 1 / 20

/-- First-match name lookup, `list.index` without its exception:
`some i` is the index of the first occurrence, `none` means a `ValueError`. -/
def pyIndex (x : String) : List String → Option Nat
  | [] => none
  | y :: ys => if y = x then some 0 else (pyIndex x ys).map (· + 1)

/-- Zero-padded `'%03i' % i` for a natural number. -/
def pad3 (i : Nat) : String :=
  if i < 10 then "00" ++ toString i
  else if i < 100 then "0" ++ toString i
  else toString i

/-- `'mov_%03i.png' % ai`. -/
def movName (i : Nat) : String := "mov_" ++ pad3 i ++ ".png"

/-- `os.path.join` on two string components. -/
def joinPath (d f : String) : String :=
  if d = "" then f
  else if d.endsWith "/" then d ++ f
  else d ++ "/" ++ f

/-- `np.arange(-270, 90, 3)`: the azimuth angles of the export loop. -/
def exportAngles : List Int :=
  (List.range (((90 : Int) - (-270) + 3 - 1) / 3).toNat).map
    (fun i => -270 + 3 * (i : Int))

/-- The body of the node loop at index `ni`, for position row `node_pt`:
the `ax.scatter` call (whose attribute lookups happen first), then the
optional `ax.text` label guarded by `node_label_set[ni]`. -/
def nodeStep (names : List String) (labels : List Bool) (sizes : List ℚ)
    (colors : List String) (alphas : List ℚ) (ni : Nat) (node_pt : Pos3) :
    RunResult :=
  match sizes[ni]?, colors[ni]?, alphas[ni]? with
  | some s, some c, some a =>
    match labels[ni]? with
    | some lbl =>
      if lbl then
        match names[ni]? with
        | some nm =>
          ([Op.scatter node_pt s c a,
            Op.nodeText node_pt.x node_pt.y (node_pt.z + node_label_offset) nm c a],
           none)
        | none => ([Op.scatter node_pt s c a], some PyError.indexError)
      else ([Op.scatter node_pt s c a], none)
    | none => ([Op.scatter node_pt s c a], some PyError.indexError)
  | _, _, _ => ([], some PyError.indexError)

/-- `for ni, node_pt in enumerate(node_positions): …` starting at index `ni`. -/
def nodeLoop (names : List String) (labels : List Bool) (sizes : List ℚ)
    (colors : List String) (alphas : List ℚ) :
    List Pos3 → Nat → RunResult
  | [], _ => ([], none)
  | p :: ps, ni =>
    match nodeStep names labels sizes colors alphas ni p with
    | (ops, some e) => (ops, some e)
    | (ops, none) =>
      let rest := nodeLoop names labels sizes colors alphas ps (ni + 1)
      (ops ++ rest.1, rest.2)

/-- `edge_inds = [[node_names.index(n1), node_names.index(n2)] for n1, n2 in edges]`,
a single list comprehension evaluated before the edge loop. -/
def resolveEdges (names : List String) :
    List (String × String) → Except PyError (List (Nat × Nat))
  | [] => Except.ok []
  | (n1, n2) :: es =>
    match pyIndex n1 names, pyIndex n2 names with
    | some i1, some i2 => (resolveEdges names es).map (fun l => (i1, i2) :: l)
    | _, _ => Except.error PyError.valueError

/-- `edge_positions = [np.vstack((node_positions[e[0]], node_positions[e[1]])) for e in edge_inds]`. -/
def edgePositions (pos : List Pos3) :
    List (Nat × Nat) → Except PyError (List (Pos3 × Pos3))
  | [] => Except.ok []
  | (i1, i2) :: es =>
    match pos[i1]?, pos[i2]? with
    | some p1, some p2 => (edgePositions pos es).map (fun l => (p1, p2) :: l)
    | _, _ => Except.error PyError.indexError

/-- The body of the edge loop at index `ei`, for endpoint rows `(p1, p2)`:
the `ax.plot` call (whose attribute lookups happen first), then the optional
edge-label `ax.text` guarded by `edge_label_set[ei]`. -/
def edgeStep (names : List String) (edge_inds : List (Nat × Nat))
    (labels : List Bool) (sizes : List ℚ) (colors : List String)
    (alphas : List ℚ) (ei : Nat) (p1 p2 : Pos3) : RunResult :=
  match sizes[ei]?, colors[ei]?, alphas[ei]? with
  | some w, some c, some a =>
    match labels[ei]? with
    | none => ([Op.plotLine p1 p2 w c a], some PyError.indexError)
    | some lbl =>
      if lbl then
        match edge_inds[ei]? with
        | none => ([Op.plotLine p1 p2 w c a], some PyError.indexError)
        | some (i1, i2) =>
          match names[i1]?, names[i2]? with
          | some nm1, some nm2 =>
            let mid := mean2 p1 p2
            ([Op.plotLine p1 p2 w c a,
              Op.edgeText mid.x mid.y (mid.z + edge_label_offset)
                (nm1 ++ "<->" ++ nm2) (sub3 p2 p1) c a],
             none)
          | _, _ => ([Op.plotLine p1 p2 w c a], some PyError.indexError)
      else ([Op.plotLine p1 p2 w c a], none)
  | _, _, _ => ([], some PyError.indexError)

/-- `for ei, edge_pt in enumerate(edge_positions): …` starting at index `ei`. -/
def edgeLoop (names : List String) (edge_inds : List (Nat × Nat))
    (labels : List Bool) (sizes : List ℚ) (colors : List String)
    (alphas : List ℚ) : List (Pos3 × Pos3) → Nat → RunResult
  | [], _ => ([], none)
  | (p1, p2) :: ps, ei =>
    match edgeStep names edge_inds labels sizes colors alphas ei p1 p2 with
    | (ops, some e) => (ops, some e)
    | (ops, none) =>
      let rest := edgeLoop names edge_inds labels sizes colors alphas ps (ei + 1)
      (ops ++ rest.1, rest.2)

/-- The frame-export loop body: `ax.view_init(elev=elev, azim=ang)` followed by
`plt.savefig(op.join(save_fpath, 'mov_%03i.png' % ai), …)`.  Joining a
non-string path component raises before any file is written. -/
def exportLoop (fp : SaveArg) : List (Nat × Int) → RunResult
  | [] => ([], none)
  | (ai, ang) :: rest =>
    match fp with
    | SaveArg.strPath s =>
      let r := exportLoop fp rest
      (Op.viewInit elev ang :: Op.saveFig (joinPath s (movName ai)) :: r.1, r.2)
    | _ => ([Op.viewInit elev ang], some PyError.typeError)

/-- The drawing phase on already-resolved attribute lists: the node loop,
edge-index resolution, edge positions, and the edge loop, in program order. -/
def renderCore (names : List String) (pos : List Pos3) (nlb : List Bool)
    (S : List ℚ) (C : List String) (A : List ℚ)
    (edges : List (String × String)) (elb : List Bool)
    (ES : List ℚ) (EC : List String) (EA : List ℚ) : RunResult :=
  let rN := nodeLoop names nlb S C A pos 0
  match rN.2 with
  | some e => (rN.1, some e)
  | none =>
    match resolveEdges names edges with
    | Except.error e => (rN.1, some e)
    | Except.ok edge_inds =>
      match edgePositions pos edge_inds with
      | Except.error e => (rN.1, some e)
      | Except.ok eps =>
        let rE := edgeLoop names edge_inds elb ES EC EA eps 0
        (rN.1 ++ rE.1, rE.2)

/-- Everything `plot_3D_network` does before the `save_fpath` test: default
resolution (lines 65-76 of the source), then the drawing phase. -/
def renderPhase (node_names : List String) (node_positions : List Pos3)
    (node_label_set : List Bool) (edges : List (String × String))
    (edge_label_set : List Bool) (node_sizes : Option (List ℚ))
    (node_colors : Option (List String)) (node_alpha : Option (List ℚ))
    (edge_sizes : Option (List ℚ)) (edge_colors : Option (List String))
    (edge_alpha : Option (List ℚ)) : RunResult :=
  renderCore node_names node_positions node_label_set
    (node_sizes.getD (List.replicate node_names.length 50))
    (node_colors.getD (List.replicate node_names.length "green"))
    (node_alpha.getD (List.replicate node_names.length 1))
    edges edge_label_set
    (edge_sizes.getD (List.replicate edges.length 1))
    (edge_colors.getD (List.replicate edges.length "blue"))
    (edge_alpha.getD (List.replicate edges.length 1))

/-- The full renderer `plot_3D_network`: the render phase, then — only when
`save_fpath is not None` — the frame-export loop over
`enumerate(np.arange(-270, 90, 3))`. -/
def plot_3D_network (node_names : List String) (node_positions : List Pos3)
    (node_label_set : List Bool) (edges : List (String × String))
    (edge_label_set : List Bool) (node_sizes : Option (List ℚ) := none)
    (node_colors : Option (List String) := none)
    (node_alpha : Option (List ℚ) := none)
    (edge_sizes : Option (List ℚ) := none)
    (edge_colors : Option (List String) := none)
    (edge_alpha : Option (List ℚ) := none)
    (save_fpath : SaveArg := SaveArg.nonePath) : RunResult :=
  let r := renderPhase node_names node_positions node_label_set edges
    edge_label_set node_sizes node_colors node_alpha edge_sizes edge_colors
    edge_alpha
  match r.2 with
  | some e => (r.1, some e)
  | none =>
    match save_fpath with
    | SaveArg.nonePath => r
    | fp =>
      let rX := exportLoop fp exportAngles.enum
      (r.1 ++ rX.1, rX.2)

/-- `saveFig` extractor used by `savedFiles`. -/
def saveF (o : Op) : Option String :=
  match o with | Op.saveFig p => some p | _ => none

/-- The filesystem writes a run performed, in order. -/
def savedFiles (r : RunResult) : List String :=
  r.1.filterMap saveF

/-- Recognizer for `scatter` operations. -/
def isScatter : Op → Bool
  | Op.scatter _ _ _ _ => true
  | _ => false

/-- Recognizer for node-label text operations. -/
def isNodeText : Op → Bool
  | Op.nodeText _ _ _ _ _ _ => true
  | _ => false

/-- Recognizer for edge-segment operations. -/
def isPlotLine : Op → Bool
  | Op.plotLine _ _ _ _ _ => true
  | _ => false

/-- Recognizer for edge-label text operations. -/
def isEdgeText : Op → Bool
  | Op.edgeText _ _ _ _ _ _ _ => true
  | _ => false

theorem pyIndex_none_of_not_mem (x : String) :
    ∀ l : List String, x ∉ l → pyIndex x l = none
  | [], _ => rfl
  | y :: ys, h => by
    have hy : ¬ y = x := fun e => h (by simp [e])
    have hys : x ∉ ys := fun m => h (List.mem_cons_of_mem _ m)
    simp [pyIndex, hy, pyIndex_none_of_not_mem x ys hys]

theorem pyIndex_of_mem (x : String) :
    ∀ l : List String, x ∈ l → ∃ i, pyIndex x l = some i
  | [], h => absurd h (List.not_mem_nil x)
  | y :: ys, h => by
    by_cases hy : y = x
    · exact ⟨0, by simp [pyIndex, hy]⟩
    · have hm : x ∈ ys := by
        rcases List.mem_cons.mp h with rfl | hm
        · exact absurd rfl hy
        · exact hm
      obtain ⟨i, hi⟩ := pyIndex_of_mem x ys hm
      exact ⟨i + 1, by simp [pyIndex, hy, hi]⟩

theorem pyIndex_first_match (x : String) :
    ∀ (l : List String) (i : Nat), pyIndex x l = some i →
      l[i]? = some x ∧ ∀ j, j < i → l[j]? ≠ some x
  | [], i, h => by simp [pyIndex] at h
  | y :: ys, i, h => by
    by_cases hy : y = x
    · rw [pyIndex, if_pos hy] at h
      obtain rfl : (0 : Nat) = i := Option.some.inj h
      exact ⟨by simp [hy], fun j hj => absurd hj (Nat.not_lt_zero j)⟩
    · rw [pyIndex, if_neg hy] at h
      obtain ⟨i', hi', rfl⟩ := Option.map_eq_some'.mp h
      obtain ⟨hg, hfirst⟩ := pyIndex_first_match x ys i' hi'
      refine ⟨by simpa using hg, ?_⟩
      intro j hj
      cases j with
      | zero => simpa using hy
      | succ j' => simpa using hfirst j' (Nat.lt_of_succ_lt_succ hj)

theorem pyIndex_lt_length (x : String) (l : List String) (i : Nat)
    (h : pyIndex x l = some i) : i < l.length := by
  obtain ⟨hlt, -⟩ := List.getElem?_eq_some.mp (pyIndex_first_match x l i h).1
  exact hlt

theorem resolveEdges_ok (names : List String) :
    ∀ edges : List (String × String),
      (∀ pr ∈ edges, pr.1 ∈ names ∧ pr.2 ∈ names) →
      ∃ inds : List (Nat × Nat), resolveEdges names edges = Except.ok inds ∧
        inds.length = edges.length ∧
        (∀ pr ∈ inds, pr.1 < names.length ∧ pr.2 < names.length) ∧
        (∀ (k : Nat) (a b : String), edges[k]? = some (a, b) →
          ∃ i1 i2 : Nat, inds[k]? = some (i1, i2) ∧
            pyIndex a names = some i1 ∧ pyIndex b names = some i2)
  | [], _ => ⟨[], rfl, rfl, by simp, by simp⟩
  | (a, b) :: es, h => by
    obtain ⟨ha, hb⟩ := h (a, b) (List.mem_cons_self _ _)
    obtain ⟨i1, h1⟩ := pyIndex_of_mem a names ha
    obtain ⟨i2, h2⟩ := pyIndex_of_mem b names hb
    obtain ⟨inds, hres, hlen, hbnd, hpt⟩ :=
      resolveEdges_ok names es (fun pr hpr => h pr (List.mem_cons_of_mem _ hpr))
    refine ⟨(i1, i2) :: inds, ?_, by simp [hlen], ?_, ?_⟩
    · simp [resolveEdges, h1, h2, hres, Except.map]
    · intro pr hpr
      rcases List.mem_cons.mp hpr with rfl | hm
      · exact ⟨pyIndex_lt_length a names i1 h1, pyIndex_lt_length b names i2 h2⟩
      · exact hbnd pr hm
    · intro k x y hk
      cases k with
      | zero =>
        have he : (a, b) = (x, y) := by simpa using hk
        obtain ⟨rfl, rfl⟩ := Prod.ext_iff.mp he
        exact ⟨i1, i2, by simp, h1, h2⟩
      | succ k' =>
        obtain ⟨j1, j2, hj, ha', hb'⟩ := hpt k' x y (by simpa using hk)
        exact ⟨j1, j2, by simpa using hj, ha', hb'⟩

theorem resolveEdges_badEdge (names : List String) :
    ∀ edges : List (String × String),
      (∃ pr ∈ edges, pr.1 ∉ names ∨ pr.2 ∉ names) →
      resolveEdges names edges = Except.error PyError.valueError
  | [], h => by simp at h
  | (a, b) :: es, h => by
    obtain ⟨pr, hpr, hbad⟩ := h
    rcases List.mem_cons.mp hpr with rfl | hm
    · rcases hbad with h1 | h2
      · simp [resolveEdges, pyIndex_none_of_not_mem a names h1]
      · cases hpa : pyIndex a names with
        | none => simp [resolveEdges, hpa]
        | some i1 => simp [resolveEdges, hpa, pyIndex_none_of_not_mem b names h2]
    · have hrec := resolveEdges_badEdge names es ⟨pr, hm, hbad⟩
      cases hpa : pyIndex a names with
      | none => simp [resolveEdges, hpa]
      | some i1 =>
        cases hpb : pyIndex b names with
        | none => simp [resolveEdges, hpa, hpb]
        | some i2 => simp [resolveEdges, hpa, hpb, hrec, Except.map]

theorem edgePositions_ok (pos : List Pos3) :
    ∀ inds : List (Nat × Nat),
      (∀ pr ∈ inds, pr.1 < pos.length ∧ pr.2 < pos.length) →
      ∃ eps : List (Pos3 × Pos3), edgePositions pos inds = Except.ok eps ∧
        eps.length = inds.length ∧
        (∀ (k i1 i2 : Nat), inds[k]? = some (i1, i2) →
          ∃ p1 p2 : Pos3, pos[i1]? = some p1 ∧ pos[i2]? = some p2 ∧
            eps[k]? = some (p1, p2))
  | [], _ => ⟨[], rfl, rfl, by simp⟩
  | (i1, i2) :: is, h => by
    obtain ⟨h1, h2⟩ := h (i1, i2) (List.mem_cons_self _ _)
    obtain ⟨eps0, hres, hlen, hpt⟩ :=
      edgePositions_ok pos is (fun pr hpr => h pr (List.mem_cons_of_mem _ hpr))
    obtain ⟨p1, hp1⟩ : ∃ v, pos[i1]? = some v := ⟨_, List.getElem?_eq_getElem h1⟩
    obtain ⟨p2, hp2⟩ : ∃ v, pos[i2]? = some v := ⟨_, List.getElem?_eq_getElem h2⟩
    refine ⟨(p1, p2) :: eps0, ?_, by simp [hlen], ?_⟩
    · simp only [edgePositions]
      rw [hp1, hp2, hres]
      rfl
    · intro k j1 j2 hk
      cases k with
      | zero =>
        have he : (i1, i2) = (j1, j2) := by simpa using hk
        obtain ⟨rfl, rfl⟩ := Prod.ext_iff.mp he
        exact ⟨p1, p2, hp1, hp2, by simp⟩
      | succ k' =>
        obtain ⟨q1, q2, hq1, hq2, hq⟩ := hpt k' j1 j2 (by simpa using hk)
        exact ⟨q1, q2, hq1, hq2, by simpa using hq⟩

theorem drop_cons_of_getElem? {α : Type} {l : List α} {n : Nat} {b : α}
    (h : l[n]? = some b) : l.drop n = b :: l.drop (n + 1) := by
  obtain ⟨hlt, hget⟩ := List.getElem?_eq_some.mp h
  rw [List.drop_eq_getElem_cons hlt, hget]

theorem nodeStep_noWrite (names : List String) (labels : List Bool)
    (sizes : List ℚ) (colors : List String) (alphas : List ℚ) (ni : Nat)
    (p : Pos3) :
    (nodeStep names labels sizes colors alphas ni p).1.filterMap saveF = [] := by
  unfold nodeStep
  repeat' split
  all_goals rfl

theorem nodeStep_snd (names : List String) (labels : List Bool)
    (sizes : List ℚ) (colors : List String) (alphas : List ℚ) (ni : Nat)
    (p : Pos3) :
    (nodeStep names labels sizes colors alphas ni p).2 = none ∨
      (nodeStep names labels sizes colors alphas ni p).2 = some PyError.indexError := by
  unfold nodeStep
  repeat' split
  all_goals first | exact Or.inl rfl | exact Or.inr rfl

theorem nodeStep_short (names : List String) (labels : List Bool)
    (sizes : List ℚ) (colors : List String) (alphas : List ℚ) (ni : Nat)
    (p : Pos3)
    (h : sizes.length ≤ ni ∨ colors.length ≤ ni ∨ alphas.length ≤ ni ∨
      labels.length ≤ ni) :
    (nodeStep names labels sizes colors alphas ni p).2 = some PyError.indexError := by
  rcases h with h | h | h | h
  · cases hc : colors[ni]? <;> cases ha : alphas[ni]? <;>
      simp [nodeStep, List.getElem?_eq_none h, hc, ha]
  · cases hs : sizes[ni]? <;> cases ha : alphas[ni]? <;>
      simp [nodeStep, hs, List.getElem?_eq_none h, ha]
  · cases hs : sizes[ni]? <;> cases hc : colors[ni]? <;>
      simp [nodeStep, hs, hc, List.getElem?_eq_none h]
  · cases hs : sizes[ni]? <;> cases hc : colors[ni]? <;>
      cases ha : alphas[ni]? <;>
      simp [nodeStep, hs, hc, ha, List.getElem?_eq_none h]

theorem nodeStep_none_bounds (names : List String) (labels : List Bool)
    (sizes : List ℚ) (colors : List String) (alphas : List ℚ) (ni : Nat)
    (p : Pos3)
    (h : (nodeStep names labels sizes colors alphas ni p).2 = none) :
    ni < sizes.length ∧ ni < colors.length ∧ ni < alphas.length ∧
      ni < labels.length := by
  refine ⟨?_, ?_, ?_, ?_⟩ <;> by_contra hb
  · rw [nodeStep_short names labels sizes colors alphas ni p
      (Or.inl (Nat.not_lt.mp hb))] at h
    exact Option.noConfusion h
  · rw [nodeStep_short names labels sizes colors alphas ni p
      (Or.inr (Or.inl (Nat.not_lt.mp hb)))] at h
    exact Option.noConfusion h
  · rw [nodeStep_short names labels sizes colors alphas ni p
      (Or.inr (Or.inr (Or.inl (Nat.not_lt.mp hb))))] at h
    exact Option.noConfusion h
  · rw [nodeStep_short names labels sizes colors alphas ni p
      (Or.inr (Or.inr (Or.inr (Nat.not_lt.mp hb))))] at h
    exact Option.noConfusion h

theorem nodeLoop_cons (names : List String) (labels : List Bool)
    (sizes : List ℚ) (colors : List String) (alphas : List ℚ) (p : Pos3)
    (ps : List Pos3) (ni : Nat) :
    nodeLoop names labels sizes colors alphas (p :: ps) ni =
      match nodeStep names labels sizes colors alphas ni p with
      | (ops, some e) => (ops, some e)
      | (ops, none) =>
        (ops ++ (nodeLoop names labels sizes colors alphas ps (ni + 1)).1,
         (nodeLoop names labels sizes colors alphas ps (ni + 1)).2) := rfl

theorem nodeLoop_cons_ok (names : List String) (labels : List Bool)
    (sizes : List ℚ) (colors : List String) (alphas : List ℚ) (p : Pos3)
    (ps : List Pos3) (ni : Nat) (ops : List Op)
    (h : nodeStep names labels sizes colors alphas ni p = (ops, none)) :
    nodeLoop names labels sizes colors alphas (p :: ps) ni =
      (ops ++ (nodeLoop names labels sizes colors alphas ps (ni + 1)).1,
       (nodeLoop names labels sizes colors alphas ps (ni + 1)).2) := by
  rw [nodeLoop_cons, h]

theorem nodeLoop_cons_err (names : List String) (labels : List Bool)
    (sizes : List ℚ) (colors : List String) (alphas : List ℚ) (p : Pos3)
    (ps : List Pos3) (ni : Nat) (ops : List Op) (e : PyError)
    (h : nodeStep names labels sizes colors alphas ni p = (ops, some e)) :
    nodeLoop names labels sizes colors alphas (p :: ps) ni = (ops, some e) := by
  rw [nodeLoop_cons, h]

theorem nodeLoop_noWrite (names : List String) (labels : List Bool)
    (sizes : List ℚ) (colors : List String) (alphas : List ℚ) :
    ∀ (ps : List Pos3) (ni : Nat),
      (nodeLoop names labels sizes colors alphas ps ni).1.filterMap saveF = []
  | [], _ => rfl
  | p :: ps, ni => by
    rcases hstep : nodeStep names labels sizes colors alphas ni p with ⟨ops, err⟩
    have hops : ops.filterMap saveF = [] := by
      have h0 := nodeStep_noWrite names labels sizes colors alphas ni p
      rw [hstep] at h0
      exact h0
    cases err with
    | none =>
      rw [nodeLoop_cons_ok names labels sizes colors alphas p ps ni ops hstep]
      simp [List.filterMap_append, hops,
        nodeLoop_noWrite names labels sizes colors alphas ps (ni + 1)]
    | some e =>
      rw [nodeLoop_cons_err names labels sizes colors alphas p ps ni ops e hstep]
      exact hops

theorem nodeLoop_spec (names : List String) (labels : List Bool)
    (sizes : List ℚ) (colors : List String) (alphas : List ℚ) :
    ∀ (ps : List Pos3) (ni : Nat),
      ni + ps.length ≤ sizes.length →
      ni + ps.length ≤ colors.length →
      ni + ps.length ≤ alphas.length →
      ni + ps.length ≤ labels.length →
      ni + ps.length ≤ names.length →
      (nodeLoop names labels sizes colors alphas ps ni).2 = none ∧
      (nodeLoop names labels sizes colors alphas ps ni).1.countP isScatter
        = ps.length ∧
      (nodeLoop names labels sizes colors alphas ps ni).1.countP isNodeText
        = ((labels.drop ni).take ps.length).countP id ∧
      (nodeLoop names labels sizes colors alphas ps ni).1.countP isPlotLine = 0 ∧
      (nodeLoop names labels sizes colors alphas ps ni).1.countP isEdgeText = 0
  | [], ni, _, _, _, _, _ => by simp [nodeLoop]
  | p :: ps, ni, hs, hc, ha, hl, hn => by
    simp only [List.length_cons] at hs hc ha hl hn
    obtain ⟨s, hs0⟩ : ∃ v, sizes[ni]? = some v :=
      ⟨_, List.getElem?_eq_getElem (by omega)⟩
    obtain ⟨c, hc0⟩ : ∃ v, colors[ni]? = some v :=
      ⟨_, List.getElem?_eq_getElem (by omega)⟩
    obtain ⟨a, ha0⟩ : ∃ v, alphas[ni]? = some v :=
      ⟨_, List.getElem?_eq_getElem (by omega)⟩
    obtain ⟨lbl, hl0⟩ : ∃ v, labels[ni]? = some v :=
      ⟨_, List.getElem?_eq_getElem (by omega)⟩
    obtain ⟨nm, hn0⟩ : ∃ v, names[ni]? = some v :=
      ⟨_, List.getElem?_eq_getElem (by omega)⟩
    obtain ⟨e2, c2s, c2t, c2l, c2e⟩ :=
      nodeLoop_spec names labels sizes colors alphas ps (ni + 1)
        (by omega) (by omega) (by omega) (by omega) (by omega)
    have hwin : (labels.drop ni).take (ps.length + 1) =
        lbl :: (labels.drop (ni + 1)).take ps.length := by
      rw [drop_cons_of_getElem? hl0]
      rfl
    cases lbl with
    | false =>
      have hstep : nodeStep names labels sizes colors alphas ni p =
          ([Op.scatter p s c a], none) := by
        simp [nodeStep, hs0, hc0, ha0, hl0]
      rw [nodeLoop_cons_ok names labels sizes colors alphas p ps ni _ hstep]
      refine ⟨by simpa using e2, ?_, ?_, ?_, ?_⟩ <;>
        simp [List.countP_cons, List.countP_append, isScatter, isNodeText,
          isPlotLine, isEdgeText, c2s, c2t, c2l, c2e, hwin]
    | true =>
      have hstep : nodeStep names labels sizes colors alphas ni p =
          ([Op.scatter p s c a,
            Op.nodeText p.x p.y (p.z + node_label_offset) nm c a], none) := by
        simp [nodeStep, hs0, hc0, ha0, hl0, hn0]
      rw [nodeLoop_cons_ok names labels sizes colors alphas p ps ni _ hstep]
      refine ⟨by simpa using e2, ?_, ?_, ?_, ?_⟩ <;>
        simp [List.countP_cons, List.countP_append, isScatter, isNodeText,
          isPlotLine, isEdgeText, c2s, c2t, c2l, c2e, hwin]

theorem nodeLoop_short (names : List String) (labels : List Bool)
    (sizes : List ℚ) (colors : List String) (alphas : List ℚ) :
    ∀ (ps : List Pos3) (ni : Nat), ps ≠ [] →
      (sizes.length < ni + ps.length ∨ colors.length < ni + ps.length ∨
       alphas.length < ni + ps.length ∨ labels.length < ni + ps.length) →
      (nodeLoop names labels sizes colors alphas ps ni).2 = some PyError.indexError
  | [], _, hne, _ => absurd rfl hne
  | p :: ps, ni, _, hshort => by
    simp only [List.length_cons] at hshort
    rcases nodeStep_snd names labels sizes colors alphas ni p with hnone | herr
    · obtain ⟨b1, b2, b3, b4⟩ :=
        nodeStep_none_bounds names labels sizes colors alphas ni p hnone
      have hlen : 0 < ps.length := by rcases hshort with h | h | h | h <;> omega
      have hrec := nodeLoop_short names labels sizes colors alphas ps (ni + 1)
        (List.length_pos.mp hlen)
        (by rcases hshort with h | h | h | h
            · exact Or.inl (by omega)
            · exact Or.inr (Or.inl (by omega))
            · exact Or.inr (Or.inr (Or.inl (by omega)))
            · exact Or.inr (Or.inr (Or.inr (by omega))))
      have hstep : nodeStep names labels sizes colors alphas ni p =
          ((nodeStep names labels sizes colors alphas ni p).1, none) := by
        rw [← hnone]
      rw [nodeLoop_cons_ok names labels sizes colors alphas p ps ni _ hstep]
      simpa using hrec
    · have hstep : nodeStep names labels sizes colors alphas ni p =
          ((nodeStep names labels sizes colors alphas ni p).1,
           some PyError.indexError) := by
        rw [← herr]
      rw [nodeLoop_cons_err names labels sizes colors alphas p ps ni _ _ hstep]

theorem edgeStep_noWrite (names : List String) (inds : List (Nat × Nat))
    (labels : List Bool) (sizes : List ℚ) (colors : List String)
    (alphas : List ℚ) (ei : Nat) (p1 p2 : Pos3) :
    (edgeStep names inds labels sizes colors alphas ei p1 p2).1.filterMap saveF
      = [] := by
  unfold edgeStep
  repeat' split
  all_goals rfl

theorem edgeStep_snd (names : List String) (inds : List (Nat × Nat))
    (labels : List Bool) (sizes : List ℚ) (colors : List String)
    (alphas : List ℚ) (ei : Nat) (p1 p2 : Pos3) :
    (edgeStep names inds labels sizes colors alphas ei p1 p2).2 = none ∨
      (edgeStep names inds labels sizes colors alphas ei p1 p2).2
        = some PyError.indexError := by
  unfold edgeStep
  repeat' split
  all_goals first | exact Or.inl rfl | exact Or.inr rfl

theorem edgeStep_short (names : List String) (inds : List (Nat × Nat))
    (labels : List Bool) (sizes : List ℚ) (colors : List String)
    (alphas : List ℚ) (ei : Nat) (p1 p2 : Pos3)
    (h : sizes.length ≤ ei ∨ colors.length ≤ ei ∨ alphas.length ≤ ei ∨
      labels.length ≤ ei) :
    (edgeStep names inds labels sizes colors alphas ei p1 p2).2
      = some PyError.indexError := by
  rcases h with h | h | h | h
  · cases hc : colors[ei]? <;> cases ha : alphas[ei]? <;>
      simp [edgeStep, List.getElem?_eq_none h, hc, ha]
  · cases hs : sizes[ei]? <;> cases ha : alphas[ei]? <;>
      simp [edgeStep, hs, List.getElem?_eq_none h, ha]
  · cases hs : sizes[ei]? <;> cases hc : colors[ei]? <;>
      simp [edgeStep, hs, hc, List.getElem?_eq_none h]
  · cases hs : sizes[ei]? <;> cases hc : colors[ei]? <;>
      cases ha : alphas[ei]? <;>
      simp [edgeStep, hs, hc, ha, List.getElem?_eq_none h]

theorem edgeStep_none_bounds (names : List String) (inds : List (Nat × Nat))
    (labels : List Bool) (sizes : List ℚ) (colors : List String)
    (alphas : List ℚ) (ei : Nat) (p1 p2 : Pos3)
    (h : (edgeStep names inds labels sizes colors alphas ei p1 p2).2 = none) :
    ei < sizes.length ∧ ei < colors.length ∧ ei < alphas.length ∧
      ei < labels.length := by
  refine ⟨?_, ?_, ?_, ?_⟩ <;> by_contra hb
  · rw [edgeStep_short names inds labels sizes colors alphas ei p1 p2
      (Or.inl (Nat.not_lt.mp hb))] at h
    exact Option.noConfusion h
  · rw [edgeStep_short names inds labels sizes colors alphas ei p1 p2
      (Or.inr (Or.inl (Nat.not_lt.mp hb)))] at h
    exact Option.noConfusion h
  · rw [edgeStep_short names inds labels sizes colors alphas ei p1 p2
      (Or.inr (Or.inr (Or.inl (Nat.not_lt.mp hb))))] at h
    exact Option.noConfusion h
  · rw [edgeStep_short names inds labels sizes colors alphas ei p1 p2
      (Or.inr (Or.inr (Or.inr (Nat.not_lt.mp hb))))] at h
    exact Option.noConfusion h

theorem edgeLoop_cons (names : List String) (inds : List (Nat × Nat))
    (labels : List Bool) (sizes : List ℚ) (colors : List String)
    (alphas : List ℚ) (p1 p2 : Pos3) (ps : List (Pos3 × Pos3)) (ei : Nat) :
    edgeLoop names inds labels sizes colors alphas ((p1, p2) :: ps) ei =
      match edgeStep names inds labels sizes colors alphas ei p1 p2 with
      | (ops, some e) => (ops, some e)
      | (ops, none) =>
        (ops ++ (edgeLoop names inds labels sizes colors alphas ps (ei + 1)).1,
         (edgeLoop names inds labels sizes colors alphas ps (ei + 1)).2) := rfl

theorem edgeLoop_cons_ok (names : List String) (inds : List (Nat × Nat))
    (labels : List Bool) (sizes : List ℚ) (colors : List String)
    (alphas : List ℚ) (p1 p2 : Pos3) (ps : List (Pos3 × Pos3)) (ei : Nat)
    (ops : List Op)
    (h : edgeStep names inds labels sizes colors alphas ei p1 p2 = (ops, none)) :
    edgeLoop names inds labels sizes colors alphas ((p1, p2) :: ps) ei =
      (ops ++ (edgeLoop names inds labels sizes colors alphas ps (ei + 1)).1,
       (edgeLoop names inds labels sizes colors alphas ps (ei + 1)).2) := by
  rw [edgeLoop_cons, h]

theorem edgeLoop_cons_err (names : List String) (inds : List (Nat × Nat))
    (labels : List Bool) (sizes : List ℚ) (colors : List String)
    (alphas : List ℚ) (p1 p2 : Pos3) (ps : List (Pos3 × Pos3)) (ei : Nat)
    (ops : List Op) (e : PyError)
    (h : edgeStep names inds labels sizes colors alphas ei p1 p2
      = (ops, some e)) :
    edgeLoop names inds labels sizes colors alphas ((p1, p2) :: ps) ei
      = (ops, some e) := by
  rw [edgeLoop_cons, h]

theorem edgeLoop_noWrite (names : List String) (inds : List (Nat × Nat))
    (labels : List Bool) (sizes : List ℚ) (colors : List String)
    (alphas : List ℚ) :
    ∀ (ps : List (Pos3 × Pos3)) (ei : Nat),
      (edgeLoop names inds labels sizes colors alphas ps ei).1.filterMap saveF
        = []
  | [], _ => rfl
  | (p1, p2) :: ps, ei => by
    rcases hstep : edgeStep names inds labels sizes colors alphas ei p1 p2
      with ⟨ops, err⟩
    have hops : ops.filterMap saveF = [] := by
      have h0 := edgeStep_noWrite names inds labels sizes colors alphas ei p1 p2
      rw [hstep] at h0
      exact h0
    cases err with
    | none =>
      rw [edgeLoop_cons_ok names inds labels sizes colors alphas p1 p2 ps ei
        ops hstep]
      simp [List.filterMap_append, hops,
        edgeLoop_noWrite names inds labels sizes colors alphas ps (ei + 1)]
    | some e =>
      rw [edgeLoop_cons_err names inds labels sizes colors alphas p1 p2 ps ei
        ops e hstep]
      exact hops

theorem edgeLoop_spec (names : List String) (inds : List (Nat × Nat))
    (labels : List Bool) (sizes : List ℚ) (colors : List String)
    (alphas : List ℚ) :
    ∀ (ps : List (Pos3 × Pos3)) (ei : Nat),
      ei + ps.length ≤ sizes.length →
      ei + ps.length ≤ colors.length →
      ei + ps.length ≤ alphas.length →
      ei + ps.length ≤ labels.length →
      ei + ps.length ≤ inds.length →
      (∀ pr ∈ inds, pr.1 < names.length ∧ pr.2 < names.length) →
      (edgeLoop names inds labels sizes colors alphas ps ei).2 = none ∧
      (edgeLoop names inds labels sizes colors alphas ps ei).1.countP isPlotLine
        = ps.length ∧
      (edgeLoop names inds labels sizes colors alphas ps ei).1.countP isEdgeText
        = ((labels.drop ei).take ps.length).countP id ∧
      (edgeLoop names inds labels sizes colors alphas ps ei).1.countP isScatter
        = 0 ∧
      (edgeLoop names inds labels sizes colors alphas ps ei).1.countP isNodeText
        = 0
  | [], ei, _, _, _, _, _, _ => by simp [edgeLoop]
  | (p1, p2) :: ps, ei, hs, hc, ha, hl, hi, hbnd => by
    simp only [List.length_cons] at hs hc ha hl hi
    obtain ⟨w, hw0⟩ : ∃ v, sizes[ei]? = some v :=
      ⟨_, List.getElem?_eq_getElem (by omega)⟩
    obtain ⟨c, hc0⟩ : ∃ v, colors[ei]? = some v :=
      ⟨_, List.getElem?_eq_getElem (by omega)⟩
    obtain ⟨a, ha0⟩ : ∃ v, alphas[ei]? = some v :=
      ⟨_, List.getElem?_eq_getElem (by omega)⟩
    obtain ⟨lbl, hl0⟩ : ∃ v, labels[ei]? = some v :=
      ⟨_, List.getElem?_eq_getElem (by omega)⟩
    obtain ⟨e2, c2l, c2t, c2s, c2n⟩ :=
      edgeLoop_spec names inds labels sizes colors alphas ps (ei + 1)
        (by omega) (by omega) (by omega) (by omega) (by omega) hbnd
    have hwin : (labels.drop ei).take (ps.length + 1) =
        lbl :: (labels.drop (ei + 1)).take ps.length := by
      rw [drop_cons_of_getElem? hl0]
      rfl
    cases lbl with
    | false =>
      have hstep : edgeStep names inds labels sizes colors alphas ei p1 p2 =
          ([Op.plotLine p1 p2 w c a], none) := by
        simp [edgeStep, hw0, hc0, ha0, hl0]
      rw [edgeLoop_cons_ok names inds labels sizes colors alphas p1 p2 ps ei
        _ hstep]
      refine ⟨by simpa using e2, ?_, ?_, ?_, ?_⟩ <;>
        simp [List.countP_cons, List.countP_append, isScatter, isNodeText,
          isPlotLine, isEdgeText, c2l, c2t, c2s, c2n, hwin]
    | true =>
      obtain ⟨pr, hi0⟩ : ∃ v, inds[ei]? = some v :=
        ⟨_, List.getElem?_eq_getElem (by omega)⟩
      obtain ⟨i1, i2⟩ := pr
      obtain ⟨hb1, hb2⟩ := hbnd (i1, i2) (List.getElem?_mem hi0)
      obtain ⟨nm1, hn1⟩ : ∃ v, names[i1]? = some v :=
        ⟨_, List.getElem?_eq_getElem hb1⟩
      obtain ⟨nm2, hn2⟩ : ∃ v, names[i2]? = some v :=
        ⟨_, List.getElem?_eq_getElem hb2⟩
      have hstep : edgeStep names inds labels sizes colors alphas ei p1 p2 =
          ([Op.plotLine p1 p2 w c a,
            Op.edgeText (mean2 p1 p2).x (mean2 p1 p2).y
              ((mean2 p1 p2).z + edge_label_offset)
              (nm1 ++ "<->" ++ nm2) (sub3 p2 p1) c a], none) := by
        simp [edgeStep, hw0, hc0, ha0, hl0, hi0, hn1, hn2]
      rw [edgeLoop_cons_ok names inds labels sizes colors alphas p1 p2 ps ei
        _ hstep]
      refine ⟨by simpa using e2, ?_, ?_, ?_, ?_⟩ <;>
        simp [List.countP_cons, List.countP_append, isScatter, isNodeText,
          isPlotLine, isEdgeText, c2l, c2t, c2s, c2n, hwin]

theorem edgeLoop_short (names : List String) (inds : List (Nat × Nat))
    (labels : List Bool) (sizes : List ℚ) (colors : List String)
    (alphas : List ℚ) :
    ∀ (ps : List (Pos3 × Pos3)) (ei : Nat), ps ≠ [] →
      (sizes.length < ei + ps.length ∨ colors.length < ei + ps.length ∨
       alphas.length < ei + ps.length ∨ labels.length < ei + ps.length) →
      (edgeLoop names inds labels sizes colors alphas ps ei).2
        = some PyError.indexError
  | [], _, hne, _ => absurd rfl hne
  | (p1, p2) :: ps, ei, _, hshort => by
    simp only [List.length_cons] at hshort
    rcases edgeStep_snd names inds labels sizes colors alphas ei p1 p2
      with hnone | herr
    · obtain ⟨b1, b2, b3, b4⟩ :=
        edgeStep_none_bounds names inds labels sizes colors alphas ei p1 p2 hnone
      have hlen : 0 < ps.length := by rcases hshort with h | h | h | h <;> omega
      have hrec := edgeLoop_short names inds labels sizes colors alphas ps (ei + 1)
        (List.length_pos.mp hlen)
        (by rcases hshort with h | h | h | h
            · exact Or.inl (by omega)
            · exact Or.inr (Or.inl (by omega))
            · exact Or.inr (Or.inr (Or.inl (by omega)))
            · exact Or.inr (Or.inr (Or.inr (by omega))))
      have hstep : edgeStep names inds labels sizes colors alphas ei p1 p2 =
          ((edgeStep names inds labels sizes colors alphas ei p1 p2).1, none) := by
        rw [← hnone]
      rw [edgeLoop_cons_ok names inds labels sizes colors alphas p1 p2 ps ei
        _ hstep]
      simpa using hrec
    · have hstep : edgeStep names inds labels sizes colors alphas ei p1 p2 =
          ((edgeStep names inds labels sizes colors alphas ei p1 p2).1,
           some PyError.indexError) := by
        rw [← herr]
      rw [edgeLoop_cons_err names inds labels sizes colors alphas p1 p2 ps ei
        _ _ hstep]

/-- The operations the export loop performs for a string `save_fpath`:
for each frame index `i`, a `view_init` at elevation `elev` and azimuth
`-270 + 3 i`, then the write of frame file `mov_%03i.png`. -/
def exportTrace (s : String) : List Op :=
  (List.range 120).flatMap (fun i =>
    [Op.viewInit elev (-270 + 3 * (i : Int)),
     Op.saveFig (joinPath s (movName i))])

set_option maxRecDepth 8000 in
theorem exportLoop_str (s : String) :
    exportLoop (SaveArg.strPath s) exportAngles.enum = (exportTrace s, none) := by
  rfl

theorem exportLoop_boolFalse :
    exportLoop (SaveArg.boolPath false) exportAngles.enum
      = ([Op.viewInit elev (-270)], some PyError.typeError) := by
  decide

set_option maxRecDepth 8000 in
theorem exportTrace_saved (s : String) :
    (exportTrace s).filterMap saveF
      = (List.range 120).map (fun i => joinPath s (movName i)) := by
  rfl

theorem exportLoop_drawFree (fp : SaveArg) :
    ∀ l : List (Nat × Int),
      (exportLoop fp l).1.countP isScatter = 0 ∧
      (exportLoop fp l).1.countP isNodeText = 0 ∧
      (exportLoop fp l).1.countP isPlotLine = 0 ∧
      (exportLoop fp l).1.countP isEdgeText = 0
  | [] => by cases fp <;> simp [exportLoop]
  | (ai, ang) :: rest => by
    cases fp with
    | strPath s =>
      obtain ⟨h1, h2, h3, h4⟩ := exportLoop_drawFree (SaveArg.strPath s) rest
      simp [exportLoop, List.countP_cons, isScatter, isNodeText, isPlotLine,
        isEdgeText, h1, h2, h3, h4]
    | nonePath =>
      simp [exportLoop, List.countP_cons, isScatter, isNodeText, isPlotLine,
        isEdgeText]
    | boolPath b =>
      simp [exportLoop, List.countP_cons, isScatter, isNodeText, isPlotLine,
        isEdgeText]

theorem renderCore_noWrite (names : List String) (pos : List Pos3)
    (nlb : List Bool) (S : List ℚ) (C : List String) (A : List ℚ)
    (edges : List (String × String)) (elb : List Bool) (ES : List ℚ)
    (EC : List String) (EA : List ℚ) :
    (renderCore names pos nlb S C A edges elb ES EC EA).1.filterMap saveF
      = [] := by
  have hN := nodeLoop_noWrite names nlb S C A pos 0
  unfold renderCore
  rcases hrN : nodeLoop names nlb S C A pos 0 with ⟨nops, nerr⟩
  rw [hrN] at hN
  simp only at hN
  cases nerr with
  | some e => simpa using hN
  | none =>
    cases hres : resolveEdges names edges with
    | error e => simpa using hN
    | ok inds =>
      cases hepos : edgePositions pos inds with
      | error e =>
        simp only [hepos]
        simpa using hN
      | ok eps =>
        have hE := edgeLoop_noWrite names inds elb ES EC EA eps 0
        simp only [hepos]
        simp [List.filterMap_append, hN, hE]

theorem renderPhase_noWrite (nn : List String) (np : List Pos3) (nl : List Bool)
    (ed : List (String × String)) (el : List Bool) (ns : Option (List ℚ))
    (nc : Option (List String)) (na : Option (List ℚ)) (es : Option (List ℚ))
    (ec : Option (List String)) (ea : Option (List ℚ)) :
    (renderPhase nn np nl ed el ns nc na es ec ea).1.filterMap saveF = [] := by
  unfold renderPhase
  exact renderCore_noWrite nn np nl _ _ _ ed el _ _ _

theorem renderCore_ok (names : List String) (pos : List Pos3) (nlb : List Bool)
    (S : List ℚ) (C : List String) (A : List ℚ)
    (edges : List (String × String)) (elb : List Bool)
    (ES : List ℚ) (EC : List String) (EA : List ℚ)
    (h1 : pos.length ≤ S.length) (h2 : pos.length ≤ C.length)
    (h3 : pos.length ≤ A.length) (h4 : pos.length ≤ nlb.length)
    (h5 : pos.length ≤ names.length)
    (hed : ∀ pr ∈ edges, pr.1 ∈ names ∧ pr.2 ∈ names)
    (hnp : names.length ≤ pos.length)
    (h6 : edges.length ≤ ES.length) (h7 : edges.length ≤ EC.length)
    (h8 : edges.length ≤ EA.length) (h9 : edges.length ≤ elb.length) :
    ∃ (inds : List (Nat × Nat)) (eps : List (Pos3 × Pos3)),
      resolveEdges names edges = Except.ok inds ∧
      edgePositions pos inds = Except.ok eps ∧
      eps.length = edges.length ∧
      renderCore names pos nlb S C A edges elb ES EC EA =
        ((nodeLoop names nlb S C A pos 0).1
          ++ (edgeLoop names inds elb ES EC EA eps 0).1, none) ∧
      (renderCore names pos nlb S C A edges elb ES EC EA).1.countP isScatter
        = pos.length ∧
      (renderCore names pos nlb S C A edges elb ES EC EA).1.countP isNodeText
        = (nlb.take pos.length).countP id ∧
      (renderCore names pos nlb S C A edges elb ES EC EA).1.countP isPlotLine
        = edges.length ∧
      (renderCore names pos nlb S C A edges elb ES EC EA).1.countP isEdgeText
        = (elb.take edges.length).countP id ∧
      (renderCore names pos nlb S C A edges elb ES EC EA).2 = none := by
  obtain ⟨hN2, hNs, hNt, hNl, hNe⟩ := nodeLoop_spec names nlb S C A pos 0
    (by omega) (by omega) (by omega) (by omega) (by omega)
  obtain ⟨inds, hres, hilen, hbnd, -⟩ := resolveEdges_ok names edges hed
  obtain ⟨eps, hepos, helen, -⟩ := edgePositions_ok pos inds (fun pr hpr =>
    ⟨lt_of_lt_of_le (hbnd pr hpr).1 hnp, lt_of_lt_of_le (hbnd pr hpr).2 hnp⟩)
  have heps : eps.length = edges.length := by rw [helen, hilen]
  obtain ⟨hE2, hEl, hEt, hEs, hEn⟩ := edgeLoop_spec names inds elb ES EC EA eps 0
    (by omega) (by omega) (by omega) (by omega) (by omega) hbnd
  have hcore : renderCore names pos nlb S C A edges elb ES EC EA =
      ((nodeLoop names nlb S C A pos 0).1
        ++ (edgeLoop names inds elb ES EC EA eps 0).1,
       (edgeLoop names inds elb ES EC EA eps 0).2) := by
    unfold renderCore
    simp only [hN2, hres, hepos]
  refine ⟨inds, eps, hres, hepos, heps, ?_, ?_, ?_, ?_, ?_, ?_⟩
  · rw [hcore, hE2]
  · rw [hcore]
    simp [List.countP_append, hNs, hEs]
  · rw [hcore]
    simp [List.countP_append, hNt, hEn]
  · rw [hcore]
    simp [List.countP_append, hNl, hEl, heps]
  · rw [hcore]
    simp [List.countP_append, hNe, hEt, heps]
  · rw [hcore]
    simpa using hE2

theorem renderCore_badEdge (names : List String) (pos : List Pos3)
    (nlb : List Bool) (S : List ℚ) (C : List String) (A : List ℚ)
    (edges : List (String × String)) (elb : List Bool) (ES : List ℚ)
    (EC : List String) (EA : List ℚ)
    (h1 : pos.length ≤ S.length) (h2 : pos.length ≤ C.length)
    (h3 : pos.length ≤ A.length) (h4 : pos.length ≤ nlb.length)
    (h5 : pos.length ≤ names.length)
    (hbad : ∃ pr ∈ edges, pr.1 ∉ names ∨ pr.2 ∉ names) :
    renderCore names pos nlb S C A edges elb ES EC EA
      = ((nodeLoop names nlb S C A pos 0).1, some PyError.valueError) := by
  obtain ⟨hN2, -, -, -, -⟩ := nodeLoop_spec names nlb S C A pos 0
    (by omega) (by omega) (by omega) (by omega) (by omega)
  unfold renderCore
  simp only [hN2, resolveEdges_badEdge names edges hbad]

theorem renderCore_nodeShort (names : List String) (pos : List Pos3)
    (nlb : List Bool) (S : List ℚ) (C : List String) (A : List ℚ)
    (edges : List (String × String)) (elb : List Bool) (ES : List ℚ)
    (EC : List String) (EA : List ℚ)
    (hne : pos ≠ [])
    (hshort : S.length < pos.length ∨ C.length < pos.length ∨
      A.length < pos.length ∨ nlb.length < pos.length) :
    (renderCore names pos nlb S C A edges elb ES EC EA).2
      = some PyError.indexError := by
  have hN := nodeLoop_short names nlb S C A pos 0 hne
    (by rcases hshort with h | h | h | h
        · exact Or.inl (by omega)
        · exact Or.inr (Or.inl (by omega))
        · exact Or.inr (Or.inr (Or.inl (by omega)))
        · exact Or.inr (Or.inr (Or.inr (by omega))))
  unfold renderCore
  simp only [hN]

theorem renderCore_edgeShort (names : List String) (pos : List Pos3)
    (nlb : List Bool) (S : List ℚ) (C : List String) (A : List ℚ)
    (edges : List (String × String)) (elb : List Bool) (ES : List ℚ)
    (EC : List String) (EA : List ℚ)
    (h1 : pos.length ≤ S.length) (h2 : pos.length ≤ C.length)
    (h3 : pos.length ≤ A.length) (h4 : pos.length ≤ nlb.length)
    (h5 : pos.length ≤ names.length)
    (hed : ∀ pr ∈ edges, pr.1 ∈ names ∧ pr.2 ∈ names)
    (hnp : names.length ≤ pos.length)
    (hne : edges ≠ [])
    (hshort : ES.length < edges.length ∨ EC.length < edges.length ∨
      EA.length < edges.length ∨ elb.length < edges.length) :
    (renderCore names pos nlb S C A edges elb ES EC EA).2
      = some PyError.indexError := by
  obtain ⟨hN2, -, -, -, -⟩ := nodeLoop_spec names nlb S C A pos 0
    (by omega) (by omega) (by omega) (by omega) (by omega)
  obtain ⟨inds, hres, hilen, hbnd, -⟩ := resolveEdges_ok names edges hed
  obtain ⟨eps, hepos, helen, -⟩ := edgePositions_ok pos inds (fun pr hpr =>
    ⟨lt_of_lt_of_le (hbnd pr hpr).1 hnp, lt_of_lt_of_le (hbnd pr hpr).2 hnp⟩)
  have heps : eps.length = edges.length := by rw [helen, hilen]
  have hpos0 : 0 < edges.length := List.length_pos.mpr hne
  have hEps_ne : eps ≠ [] := by
    intro h0
    rw [h0] at heps
    simp at heps
    omega
  have hE := edgeLoop_short names inds elb ES EC EA eps 0 hEps_ne
    (by rcases hshort with h | h | h | h
        · exact Or.inl (by omega)
        · exact Or.inr (Or.inl (by omega))
        · exact Or.inr (Or.inr (Or.inl (by omega)))
        · exact Or.inr (Or.inr (Or.inr (by omega))))
  unfold renderCore
  simp only [hN2, hres, hepos]
  simpa using hE

theorem nodeLoop_congr (names : List String) (nlb nlb' : List Bool)
    (S S' : List ℚ) (C C' : List String) (A A' : List ℚ) :
    ∀ (ps : List Pos3) (ni : Nat),
      (∀ i : Nat, ni ≤ i → i < ni + ps.length →
        S[i]? = S'[i]? ∧ C[i]? = C'[i]? ∧ A[i]? = A'[i]? ∧
          nlb[i]? = nlb'[i]?) →
      nodeLoop names nlb S C A ps ni = nodeLoop names nlb' S' C' A' ps ni
  | [], _, _ => rfl
  | p :: ps, ni, h => by
    obtain ⟨e1, e2, e3, e4⟩ := h ni (Nat.le_refl ni)
      (by simp only [List.length_cons]; omega)
    have hstep : nodeStep names nlb S C A ni p
        = nodeStep names nlb' S' C' A' ni p := by
      unfold nodeStep
      rw [e1, e2, e3, e4]
    have hrec := nodeLoop_congr names nlb nlb' S S' C C' A A' ps (ni + 1)
      (fun i hi1 hi2 => h i (by omega)
        (by simp only [List.length_cons]; omega))
    rw [nodeLoop_cons, nodeLoop_cons, hstep, hrec]

theorem edgeLoop_congr (names : List String) (inds : List (Nat × Nat))
    (elb elb' : List Bool) (ES ES' : List ℚ) (EC EC' : List String)
    (EA EA' : List ℚ) :
    ∀ (ps : List (Pos3 × Pos3)) (ei : Nat),
      (∀ i : Nat, ei ≤ i → i < ei + ps.length →
        ES[i]? = ES'[i]? ∧ EC[i]? = EC'[i]? ∧ EA[i]? = EA'[i]? ∧
          elb[i]? = elb'[i]?) →
      edgeLoop names inds elb ES EC EA ps ei
        = edgeLoop names inds elb' ES' EC' EA' ps ei
  | [], _, _ => rfl
  | (p1, p2) :: ps, ei, h => by
    obtain ⟨e1, e2, e3, e4⟩ := h ei (Nat.le_refl ei)
      (by simp only [List.length_cons]; omega)
    have hstep : edgeStep names inds elb ES EC EA ei p1 p2
        = edgeStep names inds elb' ES' EC' EA' ei p1 p2 := by
      unfold edgeStep
      rw [e1, e2, e3, e4]
    have hrec := edgeLoop_congr names inds elb elb' ES ES' EC EC' EA EA' ps (ei + 1)
      (fun i hi1 hi2 => h i (by omega)
        (by simp only [List.length_cons]; omega))
    rw [edgeLoop_cons, edgeLoop_cons, hstep, hrec]

theorem resolveEdges_pointwise (names : List String) :
    ∀ (edges : List (String × String)) (inds : List (Nat × Nat)),
      resolveEdges names edges = Except.ok inds →
      ∀ (k : Nat) (a b : String), edges[k]? = some (a, b) →
        ∃ i1 i2 : Nat, inds[k]? = some (i1, i2) ∧
          pyIndex a names = some i1 ∧ pyIndex b names = some i2
  | [], inds, _, k, a, b, hk => by simp at hk
  | (x, y) :: es, inds, h, k, a, b, hk => by
    cases hpx : pyIndex x names with
    | none =>
      simp only [resolveEdges, hpx] at h
      exact Except.noConfusion h
    | some i1 =>
      cases hpy : pyIndex y names with
      | none =>
        simp only [resolveEdges, hpx, hpy] at h
        exact Except.noConfusion h
      | some i2 =>
        simp only [resolveEdges, hpx, hpy] at h
        cases hres : resolveEdges names es with
        | error e =>
          rw [hres] at h
          simp [Except.map] at h
        | ok inds' =>
          rw [hres] at h
          simp only [Except.map] at h
          obtain rfl : (i1, i2) :: inds' = inds := Except.ok.inj h
          cases k with
          | zero =>
            have he : (x, y) = (a, b) := by simpa using hk
            obtain ⟨rfl, rfl⟩ := Prod.ext_iff.mp he
            exact ⟨i1, i2, by simp, hpx, hpy⟩
          | succ k' =>
            obtain ⟨j1, j2, hj, hja, hjb⟩ :=
              resolveEdges_pointwise names es inds' hres k' a b (by simpa using hk)
            exact ⟨j1, j2, by simpa using hj, hja, hjb⟩

theorem edgePositions_pointwise (pos : List Pos3) :
    ∀ (inds : List (Nat × Nat)) (eps : List (Pos3 × Pos3)),
      edgePositions pos inds = Except.ok eps →
      ∀ (k i1 i2 : Nat), inds[k]? = some (i1, i2) →
        ∃ p1 p2 : Pos3, pos[i1]? = some p1 ∧ pos[i2]? = some p2 ∧
          eps[k]? = some (p1, p2)
  | [], eps, _, k, i1, i2, hk => by simp at hk
  | (j1, j2) :: is, eps, h, k, i1, i2, hk => by
    cases hp1 : pos[j1]? with
    | none =>
      simp only [edgePositions, hp1] at h
      exact Except.noConfusion h
    | some q1 =>
      cases hp2 : pos[j2]? with
      | none =>
        simp only [edgePositions, hp1, hp2] at h
        exact Except.noConfusion h
      | some q2 =>
        simp only [edgePositions, hp1, hp2] at h
        cases hres : edgePositions pos is with
        | error e =>
          rw [hres] at h
          simp [Except.map] at h
        | ok eps' =>
          rw [hres] at h
          simp only [Except.map] at h
          obtain rfl : (q1, q2) :: eps' = eps := Except.ok.inj h
          cases k with
          | zero =>
            have he : (j1, j2) = (i1, i2) := by simpa using hk
            obtain ⟨rfl, rfl⟩ := Prod.ext_iff.mp he
            exact ⟨q1, q2, hp1, hp2, by simp⟩
          | succ k' =>
            obtain ⟨r1, r2, hr1, hr2, hr⟩ :=
              edgePositions_pointwise pos is eps' hres k' i1 i2 (by simpa using hk)
            exact ⟨r1, r2, hr1, hr2, by simpa using hr⟩

theorem plot_nonePath (nn : List String) (np : List Pos3) (nl : List Bool)
    (ed : List (String × String)) (el : List Bool) (ns : Option (List ℚ))
    (nc : Option (List String)) (na : Option (List ℚ)) (es : Option (List ℚ))
    (ec : Option (List String)) (ea : Option (List ℚ)) :
    plot_3D_network nn np nl ed el ns nc na es ec ea SaveArg.nonePath
      = renderPhase nn np nl ed el ns nc na es ec ea := by
  unfold plot_3D_network
  rcases hr : renderPhase nn np nl ed el ns nc na es ec ea with ⟨ops, err⟩
  cases err <;> rfl

theorem plot_of_renderPhase_err (nn : List String) (np : List Pos3)
    (nl : List Bool) (ed : List (String × String)) (el : List Bool)
    (ns : Option (List ℚ)) (nc : Option (List String)) (na : Option (List ℚ))
    (es : Option (List ℚ)) (ec : Option (List String)) (ea : Option (List ℚ))
    (fp : SaveArg) (e : PyError)
    (h : (renderPhase nn np nl ed el ns nc na es ec ea).2 = some e) :
    plot_3D_network nn np nl ed el ns nc na es ec ea fp
      = ((renderPhase nn np nl ed el ns nc na es ec ea).1, some e) := by
  unfold plot_3D_network
  rcases hr : renderPhase nn np nl ed el ns nc na es ec ea with ⟨ops, err⟩
  rw [hr] at h
  simp only at h
  subst h
  rfl

theorem plot_str_of_ok (nn : List String) (np : List Pos3) (nl : List Bool)
    (ed : List (String × String)) (el : List Bool) (ns : Option (List ℚ))
    (nc : Option (List String)) (na : Option (List ℚ)) (es : Option (List ℚ))
    (ec : Option (List String)) (ea : Option (List ℚ)) (s : String)
    (h : (renderPhase nn np nl ed el ns nc na es ec ea).2 = none) :
    plot_3D_network nn np nl ed el ns nc na es ec ea (SaveArg.strPath s)
      = ((renderPhase nn np nl ed el ns nc na es ec ea).1 ++ exportTrace s,
         none) := by
  unfold plot_3D_network
  rcases hr : renderPhase nn np nl ed el ns nc na es ec ea with ⟨ops, err⟩
  rw [hr] at h
  simp only at h
  subst h
  simp [exportLoop_str s]

theorem plot_boolFalse_of_ok (nn : List String) (np : List Pos3) (nl : List Bool)
    (ed : List (String × String)) (el : List Bool) (ns : Option (List ℚ))
    (nc : Option (List String)) (na : Option (List ℚ)) (es : Option (List ℚ))
    (ec : Option (List String)) (ea : Option (List ℚ))
    (h : (renderPhase nn np nl ed el ns nc na es ec ea).2 = none) :
    plot_3D_network nn np nl ed el ns nc na es ec ea (SaveArg.boolPath false)
      = ((renderPhase nn np nl ed el ns nc na es ec ea).1
          ++ [Op.viewInit elev (-270)], some PyError.typeError) := by
  unfold plot_3D_network
  rcases hr : renderPhase nn np nl ed el ns nc na es ec ea with ⟨ops, err⟩
  rw [hr] at h
  simp only at h
  subst h
  simp [exportLoop_boolFalse]

theorem plot_draw_counts_eq (nn : List String) (np : List Pos3) (nl : List Bool)
    (ed : List (String × String)) (el : List Bool) (ns : Option (List ℚ))
    (nc : Option (List String)) (na : Option (List ℚ)) (es : Option (List ℚ))
    (ec : Option (List String)) (ea : Option (List ℚ)) (fp : SaveArg)
    (h : (renderPhase nn np nl ed el ns nc na es ec ea).2 = none) :
    (plot_3D_network nn np nl ed el ns nc na es ec ea fp).1.countP isScatter
      = (renderPhase nn np nl ed el ns nc na es ec ea).1.countP isScatter ∧
    (plot_3D_network nn np nl ed el ns nc na es ec ea fp).1.countP isNodeText
      = (renderPhase nn np nl ed el ns nc na es ec ea).1.countP isNodeText ∧
    (plot_3D_network nn np nl ed el ns nc na es ec ea fp).1.countP isPlotLine
      = (renderPhase nn np nl ed el ns nc na es ec ea).1.countP isPlotLine ∧
    (plot_3D_network nn np nl ed el ns nc na es ec ea fp).1.countP isEdgeText
      = (renderPhase nn np nl ed el ns nc na es ec ea).1.countP isEdgeText := by
  unfold plot_3D_network
  rcases hr : renderPhase nn np nl ed el ns nc na es ec ea with ⟨ops, err⟩
  rw [hr] at h
  simp only at h
  subst h
  cases fp with
  | nonePath => exact ⟨rfl, rfl, rfl, rfl⟩
  | boolPath b =>
    obtain ⟨x1, x2, x3, x4⟩ :=
      exportLoop_drawFree (SaveArg.boolPath b) exportAngles.enum
    refine ⟨?_, ?_, ?_, ?_⟩ <;>
      simp [List.countP_append, x1, x2, x3, x4]
  | strPath s =>
    obtain ⟨x1, x2, x3, x4⟩ :=
      exportLoop_drawFree (SaveArg.strPath s) exportAngles.enum
    refine ⟨?_, ?_, ?_, ?_⟩ <;>
      simp [List.countP_append, x1, x2, x3, x4]

/-- Claim C1: when `save_fpath` is a directory string and the drawing phase
succeeds, the export loop runs to completion: the run appends exactly the
trace `exportTrace s`, whose file writes are exactly the 120 frame files
`mov_000.png` through `mov_119.png` joined onto the output directory, one per
azimuth angle `-270 + 3 i` (`i = 0..119`) at elevation `20`. -/
theorem c1_frame_export (nn : List String) (np : List Pos3) (nl : List Bool)
    (ed : List (String × String)) (el : List Bool) (ns : Option (List ℚ))
    (nc : Option (List String)) (na : Option (List ℚ)) (es : Option (List ℚ))
    (ec : Option (List String)) (ea : Option (List ℚ)) (s : String)
    (h : (plot_3D_network nn np nl ed el ns nc na es ec ea
      SaveArg.nonePath).2 = none) :
    plot_3D_network nn np nl ed el ns nc na es ec ea (SaveArg.strPath s)
      = ((plot_3D_network nn np nl ed el ns nc na es ec ea SaveArg.nonePath).1
          ++ exportTrace s, none) ∧
    savedFiles
      (plot_3D_network nn np nl ed el ns nc na es ec ea (SaveArg.strPath s))
      = (List.range 120).map (fun i => joinPath s (movName i)) ∧
    exportAngles = (List.range 120).map (fun i => (-270 : Int) + 3 * i) ∧
    elev = 20 ∧ movName 0 = "mov_000.png" ∧ movName 119 = "mov_119.png" := by
  rw [plot_nonePath] at h
  have hstr := plot_str_of_ok nn np nl ed el ns nc na es ec ea s h
  refine ⟨?_, ?_, by decide, rfl, by decide, by decide⟩
  · rw [plot_nonePath]
    exact hstr
  · rw [savedFiles, hstr]
    simp only [List.filterMap_append, renderPhase_noWrite, exportTrace_saved]
    rfl

/-- Claim C1 witness: a one-node, zero-edge network whose drawing phase
succeeds, exported to directory string `"frames"`. -/
theorem c1_frame_export_witness :
    ((plot_3D_network ["A"] [⟨0, 0, 0⟩] [false] [] []
        none none none none none none SaveArg.nonePath).2 = none) ∧
    (plot_3D_network ["A"] [⟨0, 0, 0⟩] [false] [] []
        none none none none none none (SaveArg.strPath "frames")
      = ((plot_3D_network ["A"] [⟨0, 0, 0⟩] [false] [] []
          none none none none none none SaveArg.nonePath).1
          ++ exportTrace "frames", none) ∧
      savedFiles (plot_3D_network ["A"] [⟨0, 0, 0⟩] [false] [] []
          none none none none none none (SaveArg.strPath "frames"))
        = (List.range 120).map (fun i => joinPath "frames" (movName i)) ∧
      exportAngles = (List.range 120).map (fun i => (-270 : Int) + 3 * i) ∧
      elev = 20 ∧ movName 0 = "mov_000.png" ∧ movName 119 = "mov_119.png") :=
  ⟨by decide,
   c1_frame_export ["A"] [⟨0, 0, 0⟩] [false] [] []
     none none none none none none "frames" (by decide)⟩

/-- Claim C5: the export branch is guarded only by `save_fpath is not None`,
so `save_fpath = False` — as the module's own `__main__` passes — still enters
the frame-export branch (performing the first `view_init` and then failing on
`os.path.join(False, …)`) instead of acting as a no-export signal. -/
theorem c5_false_sentinel (nn : List String) (np : List Pos3) (nl : List Bool)
    (ed : List (String × String)) (el : List Bool) (ns : Option (List ℚ))
    (nc : Option (List String)) (na : Option (List ℚ)) (es : Option (List ℚ))
    (ec : Option (List String)) (ea : Option (List ℚ))
    (h : (plot_3D_network nn np nl ed el ns nc na es ec ea
      SaveArg.nonePath).2 = none) :
    plot_3D_network nn np nl ed el ns nc na es ec ea (SaveArg.boolPath false)
      = ((plot_3D_network nn np nl ed el ns nc na es ec ea SaveArg.nonePath).1
          ++ [Op.viewInit elev (-270)], some PyError.typeError) ∧
    plot_3D_network nn np nl ed el ns nc na es ec ea (SaveArg.boolPath false)
      ≠ plot_3D_network nn np nl ed el ns nc na es ec ea SaveArg.nonePath := by
  rw [plot_nonePath] at h
  have h1 := plot_boolFalse_of_ok nn np nl ed el ns nc na es ec ea h
  constructor
  · rw [plot_nonePath]
    exact h1
  · intro he
    have h2 := congrArg Prod.snd he
    rw [h1, plot_nonePath] at h2
    simp only at h2
    rw [h] at h2
    exact Option.noConfusion h2

/-- Claim C5 witness: at a concrete successful input, `save_fpath = False`
takes the export branch and differs from the `None` run. -/
theorem c5_false_sentinel_witness :
    ((plot_3D_network ["A"] [⟨0, 0, 0⟩] [false] [] []
        none none none none none none SaveArg.nonePath).2 = none) ∧
    (plot_3D_network ["A"] [⟨0, 0, 0⟩] [false] [] []
        none none none none none none (SaveArg.boolPath false)
      = ((plot_3D_network ["A"] [⟨0, 0, 0⟩] [false] [] []
          none none none none none none SaveArg.nonePath).1
          ++ [Op.viewInit elev (-270)], some PyError.typeError) ∧
     plot_3D_network ["A"] [⟨0, 0, 0⟩] [false] [] []
        none none none none none none (SaveArg.boolPath false)
      ≠ plot_3D_network ["A"] [⟨0, 0, 0⟩] [false] [] []
        none none none none none none SaveArg.nonePath) :=
  ⟨by decide,
   c5_false_sentinel ["A"] [⟨0, 0, 0⟩] [false] [] []
     none none none none none none (by decide)⟩

/-- Claim C6: with `save_fpath` left at its default (`None`), a call performs
no filesystem writes: its trace contains no `savefig` operation. -/
theorem c6_no_writes (nn : List String) (np : List Pos3) (nl : List Bool)
    (ed : List (String × String)) (el : List Bool) (ns : Option (List ℚ))
    (nc : Option (List String)) (na : Option (List ℚ)) (es : Option (List ℚ))
    (ec : Option (List String)) (ea : Option (List ℚ)) :
    savedFiles (plot_3D_network nn np nl ed el ns nc na es ec ea) = [] := by
  rw [savedFiles, plot_nonePath]
  exact renderPhase_noWrite nn np nl ed el ns nc na es ec ea

/-- Claim C7: omitted attribute arguments resolve to the documented constant
defaults: a run with all six attributes omitted is identical to a run that
explicitly supplies node sizes 50, node colors "green", node alphas 1.0 (each
of length `len(node_names)`) and edge widths 1, edge colors "blue", edge
alphas 1.0 (each of length `len(edges)`). -/
theorem c7_defaults (nn : List String) (np : List Pos3) (nl : List Bool)
    (ed : List (String × String)) (el : List Bool) (fp : SaveArg) :
    plot_3D_network nn np nl ed el none none none none none none fp =
      plot_3D_network nn np nl ed el
        (some (List.replicate nn.length 50))
        (some (List.replicate nn.length "green"))
        (some (List.replicate nn.length 1))
        (some (List.replicate ed.length 1))
        (some (List.replicate ed.length "blue"))
        (some (List.replicate ed.length 1)) fp := rfl

/-- Claim C8: a labeled edge's text is placed at the componentwise mean of the
two resolved endpoint positions, offset by 0.05 on the third axis, with
direction vector second endpoint minus first; on the spec's concrete instance
the midpoint is `[0.5, 0, 0]` and the direction is `[1, 0, 0]`. -/
theorem c8_edge_label_geometry :
    (∀ p q : Pos3,
      (plot_3D_network ["A", "B"] [p, q] [false, false] [("A", "B")] [true]
        none none none none none none SaveArg.nonePath).1 =
        [Op.scatter p 50 "green" 1, Op.scatter q 50 "green" 1,
         Op.plotLine p q 1 "blue" 1,
         Op.edgeText ((p.x + q.x) / 2) ((p.y + q.y) / 2)
           ((p.z + q.z) / 2 + edge_label_offset) "A<->B"
           ⟨q.x - p.x, q.y - p.y, q.z - p.z⟩ "blue" 1]) ∧
    mean2 ⟨0, 0, 0⟩ ⟨1, 0, 0⟩ = ⟨1/2, 0, 0⟩ ∧
    sub3 ⟨1, 0, 0⟩ ⟨0, 0, 0⟩ = ⟨1, 0, 0⟩ ∧
    edge_label_offset = 1/20 :=
  ⟨fun p q => rfl, by simp [mean2], by simp [sub3], rfl⟩

theorem resolveEdges_length (names : List String) :
    ∀ (edges : List (String × String)) (inds : List (Nat × Nat)),
      resolveEdges names edges = Except.ok inds → inds.length = edges.length
  | [], inds, h => by
    obtain rfl : ([] : List (Nat × Nat)) = inds := Except.ok.inj h
    rfl
  | (x, y) :: es, inds, h => by
    cases hpx : pyIndex x names with
    | none =>
      simp only [resolveEdges, hpx] at h
      exact Except.noConfusion h
    | some i1 =>
      cases hpy : pyIndex y names with
      | none =>
        simp only [resolveEdges, hpx, hpy] at h
        exact Except.noConfusion h
      | some i2 =>
        simp only [resolveEdges, hpx, hpy] at h
        cases hres : resolveEdges names es with
        | error e =>
          rw [hres] at h
          simp [Except.map] at h
        | ok inds' =>
          rw [hres] at h
          simp only [Except.map] at h
          obtain rfl := Except.ok.inj h
          simp [resolveEdges_length names es inds' hres]

theorem edgePositions_length (pos : List Pos3) :
    ∀ (inds : List (Nat × Nat)) (eps : List (Pos3 × Pos3)),
      edgePositions pos inds = Except.ok eps → eps.length = inds.length
  | [], eps, h => by
    obtain rfl : ([] : List (Pos3 × Pos3)) = eps := Except.ok.inj h
    rfl
  | (j1, j2) :: is, eps, h => by
    cases hp1 : pos[j1]? with
    | none =>
      simp only [edgePositions, hp1] at h
      exact Except.noConfusion h
    | some q1 =>
      cases hp2 : pos[j2]? with
      | none =>
        simp only [edgePositions, hp1, hp2] at h
        exact Except.noConfusion h
      | some q2 =>
        simp only [edgePositions, hp1, hp2] at h
        cases hres : edgePositions pos is with
        | error e =>
          rw [hres] at h
          simp [Except.map] at h
        | ok eps' =>
          rw [hres] at h
          simp only [Except.map] at h
          obtain rfl := Except.ok.inj h
          simp [edgePositions_length pos is eps' hres]

theorem plot_nodeShort (nn : List String) (np : List Pos3) (nl : List Bool)
    (ed : List (String × String)) (el : List Bool) (ns : Option (List ℚ))
    (nc : Option (List String)) (na : Option (List ℚ)) (es : Option (List ℚ))
    (ec : Option (List String)) (ea : Option (List ℚ)) (fp : SaveArg)
    (hne : np ≠ [])
    (hshort : nl.length < np.length ∨
      (∃ l, ns = some l ∧ l.length < np.length) ∨
      (∃ l, nc = some l ∧ l.length < np.length) ∨
      (∃ l, na = some l ∧ l.length < np.length)) :
    (plot_3D_network nn np nl ed el ns nc na es ec ea fp).2
      = some PyError.indexError := by
  have hcore := renderCore_nodeShort nn np nl
    (ns.getD (List.replicate nn.length 50))
    (nc.getD (List.replicate nn.length "green"))
    (na.getD (List.replicate nn.length 1))
    ed el
    (es.getD (List.replicate ed.length 1))
    (ec.getD (List.replicate ed.length "blue"))
    (ea.getD (List.replicate ed.length 1))
    hne
    (by rcases hshort with h | ⟨l, hl, hll⟩ | ⟨l, hl, hll⟩ | ⟨l, hl, hll⟩
        · exact Or.inr (Or.inr (Or.inr h))
        · exact Or.inl (by rw [hl]; simpa using hll)
        · exact Or.inr (Or.inl (by rw [hl]; simpa using hll))
        · exact Or.inr (Or.inr (Or.inl (by rw [hl]; simpa using hll))))
  have hRPerr : (renderPhase nn np nl ed el ns nc na es ec ea).2
      = some PyError.indexError := by
    unfold renderPhase
    exact hcore
  rw [plot_of_renderPhase_err nn np nl ed el ns nc na es ec ea fp
    PyError.indexError hRPerr]

theorem plot_edgeShort (nn : List String) (np : List Pos3) (nl : List Bool)
    (ed : List (String × String)) (el : List Bool) (ns : Option (List ℚ))
    (nc : Option (List String)) (na : Option (List ℚ)) (es : Option (List ℚ))
    (ec : Option (List String)) (ea : Option (List ℚ)) (fp : SaveArg)
    (hnn : nn.length = np.length) (hnl : np.length ≤ nl.length)
    (hns : ∀ l, ns = some l → np.length ≤ l.length)
    (hnc : ∀ l, nc = some l → np.length ≤ l.length)
    (hna : ∀ l, na = some l → np.length ≤ l.length)
    (hed : ∀ pr ∈ ed, pr.1 ∈ nn ∧ pr.2 ∈ nn)
    (hne : ed ≠ [])
    (hshort : el.length < ed.length ∨
      (∃ l, es = some l ∧ l.length < ed.length) ∨
      (∃ l, ec = some l ∧ l.length < ed.length) ∨
      (∃ l, ea = some l ∧ l.length < ed.length)) :
    (plot_3D_network nn np nl ed el ns nc na es ec ea fp).2
      = some PyError.indexError := by
  have lS : np.length ≤ (ns.getD (List.replicate nn.length (50 : ℚ))).length := by
    cases ns with
    | none => simp; omega
    | some l => simpa using hns l rfl
  have lC : np.length ≤ (nc.getD (List.replicate nn.length "green")).length := by
    cases nc with
    | none => simp; omega
    | some l => simpa using hnc l rfl
  have lA : np.length ≤ (na.getD (List.replicate nn.length (1 : ℚ))).length := by
    cases na with
    | none => simp; omega
    | some l => simpa using hna l rfl
  have hcore := renderCore_edgeShort nn np nl
    (ns.getD (List.replicate nn.length 50))
    (nc.getD (List.replicate nn.length "green"))
    (na.getD (List.replicate nn.length 1))
    ed el
    (es.getD (List.replicate ed.length 1))
    (ec.getD (List.replicate ed.length "blue"))
    (ea.getD (List.replicate ed.length 1))
    lS lC lA hnl (by omega) hed (by omega) hne
    (by rcases hshort with h | ⟨l, hl, hll⟩ | ⟨l, hl, hll⟩ | ⟨l, hl, hll⟩
        · exact Or.inr (Or.inr (Or.inr h))
        · exact Or.inl (by rw [hl]; simpa using hll)
        · exact Or.inr (Or.inl (by rw [hl]; simpa using hll))
        · exact Or.inr (Or.inr (Or.inl (by rw [hl]; simpa using hll))))
  have hRPerr : (renderPhase nn np nl ed el ns nc na es ec ea).2
      = some PyError.indexError := by
    unfold renderPhase
    exact hcore
  rw [plot_of_renderPhase_err nn np nl ed el ns nc na es ec ea fp
    PyError.indexError hRPerr]

/-- Claim C2: with fully-supplied, length-matched attribute sequences and
resolvable edges, a run draws exactly `N` scatter markers, `M` line segments,
`sum(node_label_set)` node labels and `sum(edge_label_set)` edge labels. -/
theorem c2_draw_counts (nn : List String) (np : List Pos3) (nl : List Bool)
    (ed : List (String × String)) (el : List Bool)
    (S : List ℚ) (C : List String) (A : List ℚ)
    (ES : List ℚ) (EC : List String) (EA : List ℚ) (fp : SaveArg)
    (hnn : nn.length = np.length) (hnl : nl.length = np.length)
    (hS : S.length = np.length) (hC : C.length = np.length)
    (hA : A.length = np.length)
    (hel : el.length = ed.length) (hES : ES.length = ed.length)
    (hEC : EC.length = ed.length) (hEA : EA.length = ed.length)
    (hed : ∀ pr ∈ ed, pr.1 ∈ nn ∧ pr.2 ∈ nn) :
    (plot_3D_network nn np nl ed el (some S) (some C) (some A)
      (some ES) (some EC) (some EA) fp).1.countP isScatter = np.length ∧
    (plot_3D_network nn np nl ed el (some S) (some C) (some A)
      (some ES) (some EC) (some EA) fp).1.countP isPlotLine = ed.length ∧
    (plot_3D_network nn np nl ed el (some S) (some C) (some A)
      (some ES) (some EC) (some EA) fp).1.countP isNodeText = nl.countP id ∧
    (plot_3D_network nn np nl ed el (some S) (some C) (some A)
      (some ES) (some EC) (some EA) fp).1.countP isEdgeText = el.countP id := by
  have hRP : renderPhase nn np nl ed el (some S) (some C) (some A)
      (some ES) (some EC) (some EA) = renderCore nn np nl S C A ed el ES EC EA :=
    rfl
  obtain ⟨inds, eps, -, -, -, -, cS, cT, cL, cE, cerr⟩ :=
    renderCore_ok nn np nl S C A ed el ES EC EA
      (by omega) (by omega) (by omega) (by omega) (by omega) hed (by omega)
      (by omega) (by omega) (by omega) (by omega)
  obtain ⟨t1, t2, t3, t4⟩ :=
    plot_draw_counts_eq nn np nl ed el (some S) (some C) (some A)
      (some ES) (some EC) (some EA) fp (by rw [hRP]; exact cerr)
  rw [t1, t2, t3, t4, hRP]
  refine ⟨cS, cL, ?_, ?_⟩
  · rw [cT, ← hnl, List.take_length]
  · rw [cE, ← hel, List.take_length]

/-- Claim C2 witness: two nodes, one edge, every attribute supplied with
matching length; one node label and one edge label requested. -/
theorem c2_draw_counts_witness :
    ((["A", "B"] : List String).length = ([⟨0, 0, 0⟩, ⟨1, 0, 0⟩] : List Pos3).length) ∧
    ((plot_3D_network ["A", "B"] [⟨0, 0, 0⟩, ⟨1, 0, 0⟩] [true, false]
        [("A", "B")] [true] (some [50, 60]) (some ["green", "red"])
        (some [1, 1]) (some [2]) (some ["blue"]) (some [1])
        SaveArg.nonePath).1.countP isScatter = 2 ∧
     (plot_3D_network ["A", "B"] [⟨0, 0, 0⟩, ⟨1, 0, 0⟩] [true, false]
        [("A", "B")] [true] (some [50, 60]) (some ["green", "red"])
        (some [1, 1]) (some [2]) (some ["blue"]) (some [1])
        SaveArg.nonePath).1.countP isPlotLine = 1 ∧
     (plot_3D_network ["A", "B"] [⟨0, 0, 0⟩, ⟨1, 0, 0⟩] [true, false]
        [("A", "B")] [true] (some [50, 60]) (some ["green", "red"])
        (some [1, 1]) (some [2]) (some ["blue"]) (some [1])
        SaveArg.nonePath).1.countP isNodeText
        = ([true, false] : List Bool).countP id ∧
     (plot_3D_network ["A", "B"] [⟨0, 0, 0⟩, ⟨1, 0, 0⟩] [true, false]
        [("A", "B")] [true] (some [50, 60]) (some ["green", "red"])
        (some [1, 1]) (some [2]) (some ["blue"]) (some [1])
        SaveArg.nonePath).1.countP isEdgeText
        = ([true] : List Bool).countP id) :=
  ⟨rfl,
   c2_draw_counts ["A", "B"] [⟨0, 0, 0⟩, ⟨1, 0, 0⟩] [true, false]
     [("A", "B")] [true] [50, 60] ["green", "red"] [1, 1] [2] ["blue"] [1]
     SaveArg.nonePath rfl rfl rfl rfl rfl rfl rfl rfl rfl (by decide)⟩

/-- Claim C3: if some edge references a name missing from `node_names` (and
the node phase itself is well-formed), the call fails with the lookup
error (`ValueError`) raised while building `edge_inds` — before the export
loop — so no frame file at all is written, whatever `save_fpath` is. -/
theorem c3_lookup_error (nn : List String) (np : List Pos3) (nl : List Bool)
    (ed : List (String × String)) (el : List Bool) (ns : Option (List ℚ))
    (nc : Option (List String)) (na : Option (List ℚ)) (es : Option (List ℚ))
    (ec : Option (List String)) (ea : Option (List ℚ)) (fp : SaveArg)
    (hnn : nn.length = np.length)
    (hnl : np.length ≤ nl.length)
    (hns : ∀ l, ns = some l → np.length ≤ l.length)
    (hnc : ∀ l, nc = some l → np.length ≤ l.length)
    (hna : ∀ l, na = some l → np.length ≤ l.length)
    (hbad : ∃ pr ∈ ed, pr.1 ∉ nn ∨ pr.2 ∉ nn) :
    (plot_3D_network nn np nl ed el ns nc na es ec ea fp).2
      = some PyError.valueError ∧
    savedFiles (plot_3D_network nn np nl ed el ns nc na es ec ea fp) = [] := by
  have lS : np.length ≤ (ns.getD (List.replicate nn.length (50 : ℚ))).length := by
    cases ns with
    | none => simp; omega
    | some l => simpa using hns l rfl
  have lC : np.length ≤ (nc.getD (List.replicate nn.length "green")).length := by
    cases nc with
    | none => simp; omega
    | some l => simpa using hnc l rfl
  have lA : np.length ≤ (na.getD (List.replicate nn.length (1 : ℚ))).length := by
    cases na with
    | none => simp; omega
    | some l => simpa using hna l rfl
  have hRC := renderCore_badEdge nn np nl
    (ns.getD (List.replicate nn.length 50))
    (nc.getD (List.replicate nn.length "green"))
    (na.getD (List.replicate nn.length 1))
    ed el
    (es.getD (List.replicate ed.length 1))
    (ec.getD (List.replicate ed.length "blue"))
    (ea.getD (List.replicate ed.length 1))
    lS lC lA hnl (by omega) hbad
  have hRPerr : (renderPhase nn np nl ed el ns nc na es ec ea).2
      = some PyError.valueError := by
    unfold renderPhase
    rw [hRC]
  have hplot := plot_of_renderPhase_err nn np nl ed el ns nc na es ec ea fp
    PyError.valueError hRPerr
  constructor
  · rw [hplot]
  · rw [savedFiles, hplot]
    simp only [renderPhase_noWrite]

/-- Claim C3 witness: an edge endpoint "Z" absent from the node names fails
with `ValueError` and writes nothing, even with a directory supplied. -/
theorem c3_lookup_error_witness :
    ((["A"] : List String).length = ([⟨0, 0, 0⟩] : List Pos3).length) ∧
    ((plot_3D_network ["A"] [⟨0, 0, 0⟩] [false] [("A", "Z")] [false]
        none none none none none none (SaveArg.strPath "frames")).2
      = some PyError.valueError ∧
     savedFiles (plot_3D_network ["A"] [⟨0, 0, 0⟩] [false] [("A", "Z")] [false]
        none none none none none none (SaveArg.strPath "frames")) = []) :=
  ⟨rfl,
   c3_lookup_error ["A"] [⟨0, 0, 0⟩] [false] [("A", "Z")] [false]
     none none none none none none (SaveArg.strPath "frames") rfl
     (by decide) (by intro l h; cases h) (by intro l h; cases h)
     (by intro l h; cases h)
     ⟨("A", "Z"), by decide, Or.inr (by decide)⟩⟩

/-- Claim C9: successful edge resolution maps every edge `(a, b)` to the
indices delivered by first-match lookup (`list.index`): the resolved index
points at an occurrence of the name and nothing before it matches, and the
endpoint positions used are the rows at those first-match indices. -/
theorem c9_first_match (names : List String) (pos : List Pos3)
    (edges : List (String × String)) (inds : List (Nat × Nat))
    (eps : List (Pos3 × Pos3)) (k : Nat) (a b : String)
    (hres : resolveEdges names edges = Except.ok inds)
    (hepos : edgePositions pos inds = Except.ok eps)
    (hk : edges[k]? = some (a, b)) :
    ∃ i1 i2 : Nat, inds[k]? = some (i1, i2) ∧
      names[i1]? = some a ∧ (∀ j, j < i1 → names[j]? ≠ some a) ∧
      names[i2]? = some b ∧ (∀ j, j < i2 → names[j]? ≠ some b) ∧
      ∃ p1 p2 : Pos3, pos[i1]? = some p1 ∧ pos[i2]? = some p2 ∧
        eps[k]? = some (p1, p2) := by
  obtain ⟨i1, i2, hik, hpa, hpb⟩ :=
    resolveEdges_pointwise names edges inds hres k a b hk
  obtain ⟨ga, fa⟩ := pyIndex_first_match a names i1 hpa
  obtain ⟨gb, fb⟩ := pyIndex_first_match b names i2 hpb
  obtain ⟨p1, p2, hp1, hp2, hep⟩ :=
    edgePositions_pointwise pos inds eps hepos k i1 i2 hik
  exact ⟨i1, i2, hik, ga, fa, gb, fb, p1, p2, hp1, hp2, hep⟩

/-- Claim C9 witness: with the duplicated name list `["A", "B", "A"]`, the
edge `("A", "B")` resolves to index 0 — the first occurrence of "A" — and the
position used is the row at index 0, not the one at index 2. -/
theorem c9_first_match_witness :
    ∃ i1 i2 : Nat,
      (([(0, 1)] : List (Nat × Nat)))[0]? = some (i1, i2) ∧
      (["A", "B", "A"] : List String)[i1]? = some "A" ∧
      (∀ j, j < i1 → (["A", "B", "A"] : List String)[j]? ≠ some "A") ∧
      (["A", "B", "A"] : List String)[i2]? = some "B" ∧
      (∀ j, j < i2 → (["A", "B", "A"] : List String)[j]? ≠ some "B") ∧
      ∃ p1 p2 : Pos3,
        (([⟨0, 0, 0⟩, ⟨1, 0, 0⟩, ⟨2, 0, 0⟩] : List Pos3))[i1]? = some p1 ∧
        (([⟨0, 0, 0⟩, ⟨1, 0, 0⟩, ⟨2, 0, 0⟩] : List Pos3))[i2]? = some p2 ∧
        (([(⟨0, 0, 0⟩, ⟨1, 0, 0⟩)] : List (Pos3 × Pos3)))[0]? = some (p1, p2) :=
  c9_first_match ["A", "B", "A"] [⟨0, 0, 0⟩, ⟨1, 0, 0⟩, ⟨2, 0, 0⟩]
    [("A", "B")] [(0, 1)] [(⟨0, 0, 0⟩, ⟨1, 0, 0⟩)] 0 "A" "B" rfl rfl rfl

/-- Claim C4 counterexample: `node_sizes` has length 3 while `node_names` and
`node_positions` have length 2 — a length mismatch — yet the call raises no
error at all, refuting the claim that every mismatched length fails. -/
theorem c4_counterexample :
    (plot_3D_network ["A", "B"] [⟨0, 0, 0⟩, ⟨1, 0, 0⟩] [false, false] [] []
      (some [50, 50, 50]) none none none none none SaveArg.nonePath).2
      = none := by
  decide

/-- Claim C4 (amended): the renderer fails with an out-of-range
(`IndexError`) — not for every length mismatch, but exactly when a supplied
per-node attribute sequence is strictly shorter than `node_positions` (the
node loop's iteration source, nonempty), or, with a well-formed node phase
and resolvable nonempty edges, when a supplied per-edge attribute sequence is
strictly shorter than `edges`; longer sequences raise no error. -/
theorem c4_length_mismatch (nn : List String) (np : List Pos3) (nl : List Bool)
    (ed : List (String × String)) (el : List Bool) (ns : Option (List ℚ))
    (nc : Option (List String)) (na : Option (List ℚ)) (es : Option (List ℚ))
    (ec : Option (List String)) (ea : Option (List ℚ)) (fp : SaveArg) :
    (np ≠ [] →
      (nl.length < np.length ∨
       (∃ l, ns = some l ∧ l.length < np.length) ∨
       (∃ l, nc = some l ∧ l.length < np.length) ∨
       (∃ l, na = some l ∧ l.length < np.length)) →
      (plot_3D_network nn np nl ed el ns nc na es ec ea fp).2
        = some PyError.indexError) ∧
    (ed ≠ [] →
      nn.length = np.length →
      np.length ≤ nl.length →
      (∀ l, ns = some l → np.length ≤ l.length) →
      (∀ l, nc = some l → np.length ≤ l.length) →
      (∀ l, na = some l → np.length ≤ l.length) →
      (∀ pr ∈ ed, pr.1 ∈ nn ∧ pr.2 ∈ nn) →
      (el.length < ed.length ∨
       (∃ l, es = some l ∧ l.length < ed.length) ∨
       (∃ l, ec = some l ∧ l.length < ed.length) ∨
       (∃ l, ea = some l ∧ l.length < ed.length)) →
      (plot_3D_network nn np nl ed el ns nc na es ec ea fp).2
        = some PyError.indexError) :=
  ⟨fun hne hshort =>
      plot_nodeShort nn np nl ed el ns nc na es ec ea fp hne hshort,
   fun hne hnn hnl hns hnc hna hed hshort =>
      plot_edgeShort nn np nl ed el ns nc na es ec ea fp hnn hnl hns hnc hna
        hed hne hshort⟩

/-- Claim C4 (amended) witness: a too-short `node_label_set` fails with
`IndexError` on a nonempty node list, and a too-short `edge_label_set` fails
with `IndexError` on a well-formed node phase with one edge. -/
theorem c4_length_mismatch_witness :
    ((plot_3D_network ["A"] [⟨0, 0, 0⟩] [] [] []
        none none none none none none SaveArg.nonePath).2
      = some PyError.indexError) ∧
    ((plot_3D_network ["A"] [⟨0, 0, 0⟩] [false] [("A", "A")] []
        none none none none none none SaveArg.nonePath).2
      = some PyError.indexError) :=
  ⟨(c4_length_mismatch ["A"] [⟨0, 0, 0⟩] [] [] []
      none none none none none none SaveArg.nonePath).1
      (by decide) (Or.inl (by decide)),
   (c4_length_mismatch ["A"] [⟨0, 0, 0⟩] [false] [("A", "A")] []
      none none none none none none SaveArg.nonePath).2
      (by decide) rfl (by decide)
      (fun l h => Option.noConfusion h) (fun l h => Option.noConfusion h)
      (fun l h => Option.noConfusion h) (by decide) (Or.inl (by decide))⟩

/-- Claim C10: lengths are never checked up front. With adequate (possibly
strictly longer) attribute sequences the call raises no error, and the excess
entries are never read: the run is identical to the run on the sequences
truncated to `len(node_positions)` / `len(edges)`. An out-of-range failure
(`IndexError`) occurs exactly when an element loop indexes past the end of a
too-short sequence. -/
theorem c10_no_upfront_length_check (nn : List String) (np : List Pos3)
    (nl : List Bool) (ed : List (String × String)) (el : List Bool)
    (ns : Option (List ℚ)) (nc : Option (List String)) (na : Option (List ℚ))
    (es : Option (List ℚ)) (ec : Option (List String)) (ea : Option (List ℚ))
    (fp : SaveArg) :
    (nn.length = np.length →
      np.length ≤ nl.length →
      (∀ l, ns = some l → np.length ≤ l.length) →
      (∀ l, nc = some l → np.length ≤ l.length) →
      (∀ l, na = some l → np.length ≤ l.length) →
      (∀ pr ∈ ed, pr.1 ∈ nn ∧ pr.2 ∈ nn) →
      ed.length ≤ el.length →
      (∀ l, es = some l → ed.length ≤ l.length) →
      (∀ l, ec = some l → ed.length ≤ l.length) →
      (∀ l, ea = some l → ed.length ≤ l.length) →
      (plot_3D_network nn np nl ed el ns nc na es ec ea SaveArg.nonePath).2
          = none ∧
      plot_3D_network nn np nl ed el ns nc na es ec ea fp =
        plot_3D_network nn np (nl.take np.length) ed (el.take ed.length)
          (Option.map (List.take np.length) ns)
          (Option.map (List.take np.length) nc)
          (Option.map (List.take np.length) na)
          (Option.map (List.take ed.length) es)
          (Option.map (List.take ed.length) ec)
          (Option.map (List.take ed.length) ea) fp) ∧
    (np ≠ [] →
      (nl.length < np.length ∨
       (∃ l, ns = some l ∧ l.length < np.length) ∨
       (∃ l, nc = some l ∧ l.length < np.length) ∨
       (∃ l, na = some l ∧ l.length < np.length)) →
      (plot_3D_network nn np nl ed el ns nc na es ec ea fp).2
        = some PyError.indexError) := by
  constructor
  · intro hnn hnl hns hnc hna hed hel hes hec hea
    have lS : np.length ≤ (ns.getD (List.replicate nn.length (50 : ℚ))).length := by
      cases ns with
      | none => simp; omega
      | some l => simpa using hns l rfl
    have lC : np.length ≤ (nc.getD (List.replicate nn.length "green")).length := by
      cases nc with
      | none => simp; omega
      | some l => simpa using hnc l rfl
    have lA : np.length ≤ (na.getD (List.replicate nn.length (1 : ℚ))).length := by
      cases na with
      | none => simp; omega
      | some l => simpa using hna l rfl
    have lES : ed.length ≤ (es.getD (List.replicate ed.length (1 : ℚ))).length := by
      cases es with
      | none => simp
      | some l => simpa using hes l rfl
    have lEC : ed.length ≤ (ec.getD (List.replicate ed.length "blue")).length := by
      cases ec with
      | none => simp
      | some l => simpa using hec l rfl
    have lEA : ed.length ≤ (ea.getD (List.replicate ed.length (1 : ℚ))).length := by
      cases ea with
      | none => simp
      | some l => simpa using hea l rfl
    obtain ⟨inds, eps, hres, hepos, heps, hcoreEq, -, -, -, -, cerr⟩ :=
      renderCore_ok nn np nl
        (ns.getD (List.replicate nn.length 50))
        (nc.getD (List.replicate nn.length "green"))
        (na.getD (List.replicate nn.length 1))
        ed el
        (es.getD (List.replicate ed.length 1))
        (ec.getD (List.replicate ed.length "blue"))
        (ea.getD (List.replicate ed.length 1))
        lS lC lA hnl (by omega) hed (by omega) lES lEC lEA hel
    constructor
    · rw [plot_nonePath]
      unfold renderPhase
      exact cerr
    · have agS : ∀ i : Nat, i < np.length →
          (ns.getD (List.replicate nn.length (50 : ℚ)))[i]?
            = ((Option.map (List.take np.length) ns).getD
                (List.replicate nn.length (50 : ℚ)))[i]? := by
        intro i hi
        cases ns with
        | none => rfl
        | some l => simp [List.getElem?_take_of_lt hi]
      have agC : ∀ i : Nat, i < np.length →
          (nc.getD (List.replicate nn.length "green"))[i]?
            = ((Option.map (List.take np.length) nc).getD
                (List.replicate nn.length "green"))[i]? := by
        intro i hi
        cases nc with
        | none => rfl
        | some l => simp [List.getElem?_take_of_lt hi]
      have agA : ∀ i : Nat, i < np.length →
          (na.getD (List.replicate nn.length (1 : ℚ)))[i]?
            = ((Option.map (List.take np.length) na).getD
                (List.replicate nn.length (1 : ℚ)))[i]? := by
        intro i hi
        cases na with
        | none => rfl
        | some l => simp [List.getElem?_take_of_lt hi]
      have agL : ∀ i : Nat, i < np.length →
          nl[i]? = (nl.take np.length)[i]? :=
        fun i hi => (List.getElem?_take_of_lt hi).symm
      have agES : ∀ i : Nat, i < ed.length →
          (es.getD (List.replicate ed.length (1 : ℚ)))[i]?
            = ((Option.map (List.take ed.length) es).getD
                (List.replicate ed.length (1 : ℚ)))[i]? := by
        intro i hi
        cases es with
        | none => rfl
        | some l => simp [List.getElem?_take_of_lt hi]
      have agEC : ∀ i : Nat, i < ed.length →
          (ec.getD (List.replicate ed.length "blue"))[i]?
            = ((Option.map (List.take ed.length) ec).getD
                (List.replicate ed.length "blue"))[i]? := by
        intro i hi
        cases ec with
        | none => rfl
        | some l => simp [List.getElem?_take_of_lt hi]
      have agEA : ∀ i : Nat, i < ed.length →
          (ea.getD (List.replicate ed.length (1 : ℚ)))[i]?
            = ((Option.map (List.take ed.length) ea).getD
                (List.replicate ed.length (1 : ℚ)))[i]? := by
        intro i hi
        cases ea with
        | none => rfl
        | some l => simp [List.getElem?_take_of_lt hi]
      have agEL : ∀ i : Nat, i < ed.length →
          el[i]? = (el.take ed.length)[i]? :=
        fun i hi => (List.getElem?_take_of_lt hi).symm
      have hN : nodeLoop nn nl
            (ns.getD (List.replicate nn.length 50))
            (nc.getD (List.replicate nn.length "green"))
            (na.getD (List.replicate nn.length 1)) np 0
          = nodeLoop nn (nl.take np.length)
            ((Option.map (List.take np.length) ns).getD
              (List.replicate nn.length 50))
            ((Option.map (List.take np.length) nc).getD
              (List.replicate nn.length "green"))
            ((Option.map (List.take np.length) na).getD
              (List.replicate nn.length 1)) np 0 :=
        nodeLoop_congr nn nl (nl.take np.length)
          (ns.getD (List.replicate nn.length 50))
          ((Option.map (List.take np.length) ns).getD
            (List.replicate nn.length 50))
          (nc.getD (List.replicate nn.length "green"))
          ((Option.map (List.take np.length) nc).getD
            (List.replicate nn.length "green"))
          (na.getD (List.replicate nn.length 1))
          ((Option.map (List.take np.length) na).getD
            (List.replicate nn.length 1)) np 0
          (fun i h1 h2 => ⟨agS i (by omega), agC i (by omega),
            agA i (by omega), agL i (by omega)⟩)
      have hRC : renderCore nn np nl
            (ns.getD (List.replicate nn.length 50))
            (nc.getD (List.replicate nn.length "green"))
            (na.getD (List.replicate nn.length 1))
            ed el
            (es.getD (List.replicate ed.length 1))
            (ec.getD (List.replicate ed.length "blue"))
            (ea.getD (List.replicate ed.length 1))
          = renderCore nn np (nl.take np.length)
            ((Option.map (List.take np.length) ns).getD
              (List.replicate nn.length 50))
            ((Option.map (List.take np.length) nc).getD
              (List.replicate nn.length "green"))
            ((Option.map (List.take np.length) na).getD
              (List.replicate nn.length 1))
            ed (el.take ed.length)
            ((Option.map (List.take ed.length) es).getD
              (List.replicate ed.length 1))
            ((Option.map (List.take ed.length) ec).getD
              (List.replicate ed.length "blue"))
            ((Option.map (List.take ed.length) ea).getD
              (List.replicate ed.length 1)) := by
        unfold renderCore
        rw [hN]
        cases hres2 : resolveEdges nn ed with
        | error e => simp only [hres2]
        | ok inds2 =>
          cases hepos2 : edgePositions np inds2 with
          | error e => simp only [hres2, hepos2]
          | ok eps2 =>
            have hlen2 : eps2.length = ed.length := by
              rw [edgePositions_length np inds2 eps2 hepos2,
                resolveEdges_length nn ed inds2 hres2]
            have hE : edgeLoop nn inds2 el
                  (es.getD (List.replicate ed.length 1))
                  (ec.getD (List.replicate ed.length "blue"))
                  (ea.getD (List.replicate ed.length 1)) eps2 0
                = edgeLoop nn inds2 (el.take ed.length)
                  ((Option.map (List.take ed.length) es).getD
                    (List.replicate ed.length 1))
                  ((Option.map (List.take ed.length) ec).getD
                    (List.replicate ed.length "blue"))
                  ((Option.map (List.take ed.length) ea).getD
                    (List.replicate ed.length 1)) eps2 0 :=
              edgeLoop_congr nn inds2 el (el.take ed.length)
                (es.getD (List.replicate ed.length 1))
                ((Option.map (List.take ed.length) es).getD
                  (List.replicate ed.length 1))
                (ec.getD (List.replicate ed.length "blue"))
                ((Option.map (List.take ed.length) ec).getD
                  (List.replicate ed.length "blue"))
                (ea.getD (List.replicate ed.length 1))
                ((Option.map (List.take ed.length) ea).getD
                  (List.replicate ed.length 1)) eps2 0
                (fun i h1 h2 => by
                  have hi : i < ed.length := by omega
                  exact ⟨agES i hi, agEC i hi, agEA i hi, agEL i hi⟩)
            simp only [hres2, hepos2, hE]
      show plot_3D_network nn np nl ed el ns nc na es ec ea fp = _
      unfold plot_3D_network renderPhase
      rw [hRC]
  · intro hne hshort
    exact plot_nodeShort nn np nl ed el ns nc na es ec ea fp hne hshort

/-- Claim C10 witness: longer `node_sizes` / `node_label_set` /
`edge_label_set` / `edge_sizes` are accepted and equivalent to their
truncations, while a too-short supplied `node_sizes` fails with
`IndexError`. -/
theorem c10_no_upfront_length_check_witness :
    ((plot_3D_network ["A"] [⟨0, 0, 0⟩] [true, false] [] [true]
        (some [50, 60]) none none (some [7]) none none
        SaveArg.nonePath).2 = none ∧
     plot_3D_network ["A"] [⟨0, 0, 0⟩] [true, false] [] [true]
        (some [50, 60]) none none (some [7]) none none SaveArg.nonePath =
       plot_3D_network ["A"] [⟨0, 0, 0⟩] ([true, false].take 1) []
         ([true].take 0)
         (Option.map (List.take 1) (some [50, 60]))
         (Option.map (List.take 1) none)
         (Option.map (List.take 1) none)
         (Option.map (List.take 0) (some [7]))
         (Option.map (List.take 0) none)
         (Option.map (List.take 0) none) SaveArg.nonePath) ∧
    ((plot_3D_network ["A"] [⟨0, 0, 0⟩] [true] [] []
        (some []) none none none none none SaveArg.nonePath).2
      = some PyError.indexError) :=
  ⟨(c10_no_upfront_length_check ["A"] [⟨0, 0, 0⟩] [true, false] [] [true]
      (some [50, 60]) none none (some [7]) none none SaveArg.nonePath).1
      rfl (by decide)
      (fun l h => by obtain rfl := Option.some.inj h; decide)
      (fun l h => Option.noConfusion h) (fun l h => Option.noConfusion h)
      (by simp) (by decide)
      (fun l h => by obtain rfl := Option.some.inj h; decide)
      (fun l h => Option.noConfusion h) (fun l h => Option.noConfusion h),
   (c10_no_upfront_length_check ["A"] [⟨0, 0, 0⟩] [true] [] []
      (some []) none none none none none SaveArg.nonePath).2
      (by decide) (Or.inr (Or.inl ⟨[], rfl, by decide⟩))⟩

theorem exportAngles_facts :
    exportAngles.length = 120 ∧ exportAngles[0]? = some (-270) ∧
      exportAngles[119]? = some 87 := by
  decide

theorem movName_facts :
    movName 0 = "mov_000.png" ∧ movName 42 = "mov_042.png" ∧
      movName 119 = "mov_119.png" := by
  decide

theorem pyIndex_dup_example : pyIndex "A" ["B", "A", "A"] = some 1 := by
  decide
